import Mathlib

/-!
Verification development for the SOWS (Small Overwater Structures) GIS
summary scripts.

The repository consists of two scripts that orchestrate calls into the
arcpy geoprocessing engine over a geodatabase workspace:

* `SOWS_geographic_summary.py` — `get_sows_stats(summary_polygons, sows_fc,
  shoreline_fc)`: a fixed sequence of SummarizeWithin / AddField /
  CalculateField / FeatureToPoint / Snap / SplitLineAtPoint /
  CalculateGeometryAttributes / MakeFeatureLayer / SelectLayerByLocation /
  Select / SummarizeWithin / AlterField / DeleteField calls, wrapped in one
  try/except.
* `batch_export_to_csvs.py` — lists feature classes and tables of a
  workspace and exports each to `<name>.csv`.

The embedding models the workspace as an association list of named feature
classes.  A feature class carries a shape type, a field schema
(name + alias) and rows; each row has a geometry and attribute values.
Geometries are idealised as ordered lists of unit cells on a line, which is
enough to give the engine operations used by the script executable,
deterministic semantics: intersection and containment are cell-set
predicates, lengths are cell counts, snapping moves a cell to the nearest
candidate cell within a tolerance.  Attribute values are `Option Q`
(`none` is an SQL null), where `Q` is exact, kernel-computable rational
arithmetic idealising the engine's double-precision numbers.
-/

namespace SOWS

/-- Exact rational arithmetic for field values, kept unnormalized
(numerator and denominator are not reduced).  This idealises the engine's
DOUBLE arithmetic by exact fractions while staying kernel-computable:
every operation is plain `Int` arithmetic.  The pipeline computes every
value deterministically, so representation equality is the right equality
for the claims (identical computations yield identical representations).
Constructed values always carry a positive denominator. -/
structure Q where
  num : Int
  den : Int
deriving DecidableEq, Repr

instance (n : Nat) : OfNat Q n := ⟨⟨(n : Int), 1⟩⟩

def Q.ofNat (n : Nat) : Q := ⟨(n : Int), 1⟩

def Q.add (a b : Q) : Q := ⟨a.num * b.den + b.num * a.den, a.den * b.den⟩

def Q.sub (a b : Q) : Q := ⟨a.num * b.den - b.num * a.den, a.den * b.den⟩

def Q.mul (a b : Q) : Q := ⟨a.num * b.num, a.den * b.den⟩

def Q.div (a b : Q) : Q := ⟨a.num * b.den, a.den * b.num⟩

/-- Value-level zero test (zero numerator), the way Python's division
raises on a zero divisor whatever its representation. -/
def Q.isZero (a : Q) : Bool := a.num = 0

/-- Order test, correct for the positive denominators the pipeline
produces. -/
def Q.le (a b : Q) : Bool := a.num * b.den ≤ b.num * a.den

def Q.min (a b : Q) : Q := if Q.le a b then a else b

def Q.max (a b : Q) : Q := if Q.le a b then b else a

def Q.sum (xs : List Q) : Q := xs.foldl Q.add (Q.ofNat 0)

/-- Attribute value of an engine DOUBLE field; `none` models null. -/
abbrev Val := Option Q

/-- A field of a feature-class schema: physical name plus display alias. -/
structure FieldDef where
  name : String
  aliasName : String
deriving DecidableEq, Repr

/-- Geometry type of a feature class. -/
inductive ShapeType where
  | point
  | polyline
  | polygon
deriving DecidableEq, Repr

/-- Idealised geometry: an ordered list of unit cells along a line. -/
structure Geom where
  cells : List Int
deriving DecidableEq, Repr

/-- Length (in the model, also area) of a geometry: its number of cells. -/
def Geom.measure (g : Geom) : Q := Q.ofNat g.cells.length

/-- Two geometries intersect when they share a cell. -/
def Geom.intersects (g h : Geom) : Bool :=
  g.cells.any (fun c => h.cells.contains c)

/-- `g` is completely within `h` when every cell of `g` is a cell of `h`. -/
def Geom.within (g h : Geom) : Bool :=
  g.cells.all (fun c => h.cells.contains c)

/-- A feature: a geometry plus attribute values keyed by field name. -/
structure Feature where
  geom : Geom
  attrs : List (String × Val)
deriving DecidableEq, Repr

/-- Read an attribute; a missing key reads as null. -/
def Feature.get (f : Feature) (n : String) : Val :=
  match f.attrs.find? (fun kv => kv.1 = n) with
  | some kv => kv.2
  | none => none

/-- Overwrite an attribute value in place (no-op on a missing key). -/
def setAttr (r : Feature) (n : String) (v : Val) : Feature :=
  Feature.mk r.geom (r.attrs.map (fun kv => if kv.1 = n then (n, v) else kv))

/-- A feature class: shape type, schema, rows. -/
structure FC where
  shape : ShapeType
  fields : List FieldDef
  rows : List Feature
deriving DecidableEq, Repr

/-- The geodatabase workspace: named feature classes, newest first
(`arcpy.env.overwriteOutput = True`, so a rewrite shadows the old layer). -/
abbrev Workspace := List (String × FC)

/-- Resolve a dataset name in the workspace. -/
def lookupFC : Workspace → String → Option FC
  | [], _ => none
  | (m, fc) :: rest, n => if m = n then some fc else lookupFC rest n

/-- Persist a dataset under a name, overwriting any previous layer. -/
def setFC (ws : Workspace) (n : String) (fc : FC) : Workspace :=
  (n, fc) :: ws

/-- All geometry cells of a feature class (the snap/split candidate set). -/
def allCells (fc : FC) : List Int :=
  (fc.rows.map (fun r => r.geom.cells)).flatten

/-! ## Engine operations

Each definition below models exactly one arcpy tool, with the argument
shapes the script actually uses.  They are behavioural models of the
closed-source engine (the repository delegates all geometry work to it);
the modelling follows the tool contracts the script relies on. -/

/-- Statistic-name prefix the SummarizeWithin engine uses for generated
statistic fields (`mean_Area_M`, `std_sows_dist_km`, ...). -/
def statPre : String → String
  | "Mean" => "mean_"
  | "Sum" => "sum_"
  | "Min" => "min_"
  | "Max" => "max_"
  | "Stddev" => "std_"
  | _ => "stat_"

/-- Mean of a list of rationals (0 on the empty list, which the pipeline
never queries: statistics of an empty group are emitted as null). -/
def listMean (xs : List Q) : Q := Q.div (Q.sum xs) (Q.ofNat xs.length)

/-- A SummarizeWithin statistic over the non-null values of a group.  The
engine's Stddev is a square root; the model tracks the (deterministic,
rational) population variance in its place — no claim inspects the
numeric value of the dispersion statistic, only its null/not-null status
and its determinism. -/
def statOf : String → List Q → Q
  | "Mean", xs => listMean xs
  | "Sum", xs => Q.sum xs
  | "Min", xs =>
    match xs with
    | [] => Q.ofNat 0
    | h :: t => t.foldl Q.min h
  | "Max", xs =>
    match xs with
    | [] => Q.ofNat 0
    | h :: t => t.foldl Q.max h
  | "Stddev", xs =>
    Q.div (Q.sum (xs.map (fun x => Q.mul (Q.sub x (listMean xs)) (Q.sub x (listMean xs)))))
      (Q.ofNat xs.length)
  | _, _ => Q.ofNat 0

/-- Base name of the count field SummarizeWithin generates, by the shape
type of the summarized features (`Polygon_Count`, `Polyline_Count`, ...). -/
def countFieldBase : ShapeType → String
  | ShapeType.point => "Point_Count"
  | ShapeType.polyline => "Polyline_Count"
  | ShapeType.polygon => "Polygon_Count"

/-- Find an unused variant `base_k` of a generated field name. -/
def freshAux (taken : List String) (base : String) : Nat → Nat → String
  | 0, k => base ++ "_" ++ toString k
  | fuel + 1, k =>
    let cand := base ++ "_" ++ toString k
    if taken.contains cand then freshAux taken base fuel (k + 1) else cand

/-- Engine convention for generated field names: use `base` if free,
otherwise `base_1`, `base_2`, ... (this is how `Polyline_Count_1` and
`sum_Length_KILOMETERS_1` arise in the third SummarizeWithin). -/
def freshFieldName (taken : List String) (base : String) : String :=
  if taken.contains base then freshAux taken base (taken.length + 1) 1 else base

/-- The summarized features of one polygon: those intersecting it. -/
def contributing (sumFeats : FC) (p : Feature) : List Feature :=
  sumFeats.rows.filter (fun f => Geom.intersects f.geom p.geom)

/-- Non-null values of a field over a group of features. -/
def vals (feats : List Feature) (field : String) : List Q :=
  feats.filterMap (fun f => f.get field)

/-- Shape-sum of a group within a polygon: total measure of the portions
of the contributing geometries that fall inside the polygon (the engine
clips summarized lines/polygons to the polygon boundary). -/
def clippedSum (p : Feature) (cs : List Feature) : Q :=
  cs.foldl
    (fun a f =>
      Q.add a (Q.ofNat (f.geom.cells.filter (fun c => p.geom.cells.contains c)).length))
    (Q.ofNat 0)

/-- `arcpy.analysis.SummarizeWithin`.  One output row per input polygon
when `keepAll` (KEEP_ALL); otherwise rows with zero summarized features
are dropped.  Adds, in order: one statistic field per `(field, stat)`
pair (null for a polygon with no contributing features), the count field,
and the shape-sum field (`sum_Length_<unit>` for polylines,
`sum_Area_<unit>` for polygons — ADD_SHAPE_SUM is the tool's default and
the script never disables it). -/
def summarizeWithin (inPolys sumFeats : FC) (keepAll : Bool)
    (sumFields : List (String × String)) (shapeUnit : String) : FC :=
  let taken := inPolys.fields.map (fun fd => fd.name)
  let cntName := freshFieldName taken (countFieldBase sumFeats.shape)
  let shapeName : Option String :=
    match sumFeats.shape with
    | ShapeType.polyline => some (freshFieldName (taken ++ [cntName]) ("sum_Length_" ++ shapeUnit))
    | ShapeType.polygon => some (freshFieldName (taken ++ [cntName]) ("sum_Area_" ++ shapeUnit))
    | ShapeType.point => none
  let statDefs := sumFields.map (fun fs => FieldDef.mk (statPre fs.2 ++ fs.1) (statPre fs.2 ++ fs.1))
  let shapeDefs : List FieldDef :=
    match shapeName with
    | some n => [FieldDef.mk n n]
    | none => []
  let newRows := inPolys.rows.map (fun p =>
    let cs := contributing sumFeats p
    let statAttrs := sumFields.map (fun fs =>
      let v := vals cs fs.1
      (statPre fs.2 ++ fs.1, if v.isEmpty then (none : Val) else some (statOf fs.2 v)))
    let shapeAttrs : List (String × Val) :=
      match shapeName with
      | some n => [(n, if cs.isEmpty then (none : Val) else some (clippedSum p cs))]
      | none => []
    Feature.mk p.geom (p.attrs ++ statAttrs ++ [(cntName, some (Q.ofNat cs.length))] ++ shapeAttrs))
  let keptRows :=
    if keepAll then newRows
    else newRows.filter (fun r => decide (r.get cntName ≠ some 0))
  FC.mk inPolys.shape (inPolys.fields ++ statDefs ++ [FieldDef.mk cntName cntName] ++ shapeDefs)
    keptRows

/-- The successful effect of `AddField`: append the field, null-valued. -/
def addFieldOk (fc : FC) (n : String) : FC :=
  FC.mk fc.shape (fc.fields ++ [FieldDef.mk n n])
    (fc.rows.map (fun r => Feature.mk r.geom (r.attrs ++ [(n, (none : Val))])))

/-- `arcpy.management.AddField` (DOUBLE): fails if the field exists,
otherwise appends it with null values. -/
def addField (fc : FC) (n : String) : Except String FC :=
  if fc.fields.any (fun fd => fd.name = n) then
    Except.error ("AddField failed: field already exists: " ++ n)
  else
    Except.ok (addFieldOk fc n)

/-- `arcpy.management.CalculateField` with the script's expression
`!Polygon_Count!/!sum_Length_KILOMETERS!` (PYTHON3): a plain division
evaluated per row.  A null operand raises TypeError and a zero divisor
raises ZeroDivisionError, either of which fails the whole tool call
(ERROR 000539) — no row is written in that case. -/
def calcDensityRows (target num den : String) : List Feature → Except String (List Feature)
  | [] => Except.ok []
  | r :: rest =>
    match r.get num, r.get den with
    | some nv, some dv =>
      if dv.isZero then
        Except.error "ERROR 000539: ZeroDivisionError: division by zero"
      else
        match calcDensityRows target num den rest with
        | Except.error e => Except.error e
        | Except.ok rs => Except.ok (setAttr r target (some (Q.div nv dv)) :: rs)
    | _, _ => Except.error "ERROR 000539: TypeError: unsupported operand types for division"

/-- The whole CalculateField call over a feature class: all rows computed,
or the tool error of the first failing row with nothing written. -/
def calcDensityField (fc : FC) (target num den : String) : Except String FC :=
  match calcDensityRows target num den fc.rows with
  | Except.error e => Except.error e
  | Except.ok rows2 => Except.ok (FC.mk fc.shape fc.fields rows2)

/-- `arcpy.management.FeatureToPoint` with CENTROID: one representative
point per feature, attributes carried over. -/
def featureToPoint (fc : FC) : FC :=
  FC.mk ShapeType.point fc.fields
    (fc.rows.map (fun r => Feature.mk (Geom.mk (r.geom.cells.take 1)) r.attrs))

/-- One step of the nearest-candidate scan. -/
def nearestStep (c : Int) (best : Option Int) (t : Int) : Option Int :=
  match best with
  | none => some t
  | some b => if (c - t).natAbs < (c - b).natAbs then some t else some b

/-- Nearest candidate cell to `c` (first minimiser; deterministic). -/
def nearestCell (cand : List Int) (c : Int) : Option Int :=
  cand.foldl (nearestStep c) none

/-- Snap one cell: move it to the nearest candidate cell when that lies
within the tolerance, else leave it unchanged. -/
def snapCell (cand : List Int) (tol : Nat) (c : Int) : Int :=
  match nearestCell cand c with
  | none => c
  | some t => if (c - t).natAbs ≤ tol then t else c

/-- `arcpy.edit.Snap` with a single EDGE rule: every vertex of every input
feature snaps to the nearest point of the snap-environment layer within
the tolerance (500 units in the script). -/
def snapFeatures (inFC tgt : FC) (tol : Nat) : FC :=
  let cand := allCells tgt
  FC.mk inFC.shape inFC.fields
    (inFC.rows.map (fun r => Feature.mk (Geom.mk (r.geom.cells.map (snapCell cand tol))) r.attrs))

/-- Cut a cell path after every cell that is a split point. -/
def splitSegs (pts : List Int) : List Int → List Int → List (List Int)
  | acc, [] => [acc.reverse]
  | acc, c :: rest =>
    if pts.contains c then ((c :: acc).reverse) :: splitSegs pts [] rest
    else splitSegs pts (c :: acc) rest

/-- `arcpy.management.SplitLineAtPoint`: split every line feature at the
point-layer locations lying on it, each segment keeping the line's
attributes.  (The script's 1-foot search radius is the exact-incidence
case in the cell model: the points were just snapped onto the line.) -/
def splitLineAtPoint (lineFC ptsFC : FC) : FC :=
  let pts := allCells ptsFC
  FC.mk ShapeType.polyline lineFC.fields
    ((lineFC.rows.map (fun r =>
        ((splitSegs pts [] r.geom.cells).filter (fun s => !(s.isEmpty))).map
          (fun seg => Feature.mk (Geom.mk seg) r.attrs))).flatten)

/-- `arcpy.management.CalculateGeometryAttributes` `[[f, "LENGTH"]]` in
KILOMETERS: store each feature's geometric length into field `f`. -/
def calcGeomLengthKm (fc : FC) (n : String) : FC :=
  FC.mk fc.shape fc.fields
    (fc.rows.map (fun r => setAttr r n (some (Geom.measure r.geom))))

/-- `SelectLayerByLocation COMPLETELY_WITHIN` + `arcpy.analysis.Select`:
the features of `lyr` completely within at least one selecting feature.
A feature within no single selecting polygon — e.g. a segment straddling
a region boundary — is not selected, even if the union of regions covers
it. -/
def selectCompletelyWithin (lyr sel : FC) : FC :=
  FC.mk lyr.shape lyr.fields
    (lyr.rows.filter (fun r => sel.rows.any (fun p => Geom.within r.geom p.geom)))

/-! ## The field-tidying step -/

/-- One schema-tidying call of the script: `AlterField` (rename + alias)
or `DeleteField` (drop by exact name). -/
inductive TidyOp where
  | alterF (oldName newName aliasText : String)
  | deleteF (names : List String)
deriving DecidableEq, Repr

/-- Apply one tidying call; like the arcpy tools, it fails when a named
field does not exist. -/
def applyTidy (fc : FC) : TidyOp → Except String FC
  | TidyOp.alterF oldName newName aliasText =>
    if fc.fields.any (fun fd => fd.name = oldName) then
      Except.ok (FC.mk fc.shape
        (fc.fields.map (fun fd => if fd.name = oldName then FieldDef.mk newName aliasText else fd))
        (fc.rows.map (fun r => Feature.mk r.geom
          (r.attrs.map (fun kv => if kv.1 = oldName then (newName, kv.2) else kv)))))
    else Except.error ("AlterField failed: field does not exist: " ++ oldName)
  | TidyOp.deleteF names =>
    if names.all (fun n => fc.fields.any (fun fd => fd.name = n)) then
      Except.ok (FC.mk fc.shape
        (fc.fields.filter (fun fd => !(names.contains fd.name)))
        (fc.rows.map (fun r => Feature.mk r.geom
          (r.attrs.filter (fun kv => !(names.contains kv.1))))))
    else Except.error "DeleteField failed: a field does not exist"

/-- The exact tidying sequence of `get_sows_stats` (source lines 126-155):
renames, the deletion of the redundant engine-generated duplicates, the
area-field renames, and the spacing-field alias assignments. -/
def tidyOps : List TidyOp := [
  TidyOp.alterF "Polygon_Count" "sows_count" "Count of SOWS",
  TidyOp.alterF "sum_Length_KILOMETERS" "total_shoreline_km" "Total Shoreline (km)",
  TidyOp.alterF "density_sows_km" "density_sows_km" "SOWS Density (count/km)",
  TidyOp.deleteF ["Polyline_Count_1", "sum_Length_KILOMETERS_1",
    "sum_Area_SQUAREKILOMETERS", "Polyline_Count"],
  TidyOp.alterF "mean_Area_M" "mean_sows_Area_M" "Mean SOWS Area (m)",
  TidyOp.alterF "sum_Area_M" "sum_sows_Area_M" "Sum SOWS Area (m)",
  TidyOp.alterF "min_Area_M" "min_sows_Area_M" "Min SOWS Area (m)",
  TidyOp.alterF "max_Area_M" "max_sows_Area_M" "Max SOWS Area (m)",
  TidyOp.alterF "std_Area_M" "std_sows_Area_M" "Standard Deviation SOWS Area (m)",
  TidyOp.alterF "mean_sows_dist_km" "mean_sows_dist_km" "Mean SOWS Spacing (km)",
  TidyOp.alterF "sum_sows_dist_km" "sum_sows_dist_km" "Sum SOWS Spacing (km)",
  TidyOp.alterF "min_sows_dist_km" "min_sows_dist_km" "Min SOWS Spacing (km)",
  TidyOp.alterF "max_sows_dist_km" "max_sows_dist_km" "Max SOWS Spacing (km)",
  TidyOp.alterF "std_sows_dist_km" "std_sows_dist_km" "Standard Deviation SOWS Spacing (km)"]

/-- Run the tidying calls in sequence; on failure, report the feature
class as it stood before the failing call (the preceding in-place edits
are already persisted). -/
def runTidy : FC → List TidyOp → Except (FC × String) FC
  | fc, [] => Except.ok fc
  | fc, op :: rest =>
    match applyTidy fc op with
    | Except.error e => Except.error (fc, e)
    | Except.ok fc2 => runTidy fc2 rest

/-! ## The stats pipeline `get_sows_stats` -/

/-- Statistic requests of the first SummarizeWithin (source lines 45-49). -/
def areaSumFields : List (String × String) :=
  [("Area_M", "Mean"), ("Area_M", "Sum"), ("Area_M", "Min"), ("Area_M", "Max"),
   ("Area_M", "Stddev")]

/-- Statistic requests of the third SummarizeWithin (source lines 113-119). -/
def distSumFields : List (String × String) :=
  [("sows_dist_km", "Mean"), ("sows_dist_km", "Sum"), ("sows_dist_km", "Min"),
   ("sows_dist_km", "Max"), ("sows_dist_km", "Stddev")]

/-- The hardcoded snap-environment layer of source line 75: the snap step
targets this dataset name, not the `shoreline_fc` argument. -/
def snapTargetName : String := "noaa_shoreline_diss"

/-- Dataset names `get_sows_stats` writes for a given summary-polygon
layer name: the three namespaced result layers plus the fixed-name
intermediates (`sows_centroids`, `shoreline_split`, the in-memory
`shoreline_lyr`, `shorelines_split_select`). -/
def derivedNames (sp : String) : List String :=
  [sp ++ "_sum1", sp ++ "_sum2", "sows_centroids", "shoreline_split",
   "shoreline_lyr", "shorelines_split_select", sp ++ "_SOWS_Stats"]

/-- The body of `get_sows_stats` inside the `try` (source lines 39-158):
the exact tool sequence, threading the workspace through every persisted
write.  Dataset-name arguments are resolved against the workspace at the
moment the corresponding tool call reads them, as the engine does.  On an
engine error the result carries the workspace as it stands at the failure
(everything already created stays). -/
def sowsBody (ws0 : Workspace) (sp sows shore : String) (polyFC sowsFC : FC) :
    Except (Workspace × String) Workspace :=
  let out1n := sp ++ "_sum1"
  let fc1 := summarizeWithin polyFC sowsFC true areaSumFields "SQUAREKILOMETERS"
  let ws1 := setFC ws0 out1n fc1
  let out2n := sp ++ "_sum2"
  match lookupFC ws1 shore with
  | none => Except.error (ws1, "ERROR 000732: dataset does not exist: " ++ shore)
  | some shoreFC =>
    let fc2raw := summarizeWithin fc1 shoreFC true [] "KILOMETERS"
    let ws2 := setFC ws1 out2n fc2raw
    match addField fc2raw "density_sows_km" with
    | Except.error e => Except.error (ws2, e)
    | Except.ok fc2a =>
      let ws2a := setFC ws2 out2n fc2a
      match calcDensityField fc2a "density_sows_km" "Polygon_Count" "sum_Length_KILOMETERS" with
      | Except.error e => Except.error (ws2a, e)
      | Except.ok fc2b =>
        let ws3 := setFC ws2a out2n fc2b
        match lookupFC ws3 sows with
        | none => Except.error (ws3, "ERROR 000732: dataset does not exist: " ++ sows)
        | some sowsCur =>
          let cent := featureToPoint sowsCur
          let ws4 := setFC ws3 "sows_centroids" cent
          match lookupFC ws4 snapTargetName with
          | none => Except.error (ws4, "ERROR: snap environment dataset not found")
          | some noaaFC =>
            let centS := snapFeatures cent noaaFC 500
            let ws5 := setFC ws4 "sows_centroids" centS
            match lookupFC ws5 shore with
            | none => Except.error (ws5, "ERROR 000732: dataset does not exist: " ++ shore)
            | some shoreFC2 =>
              let spl := splitLineAtPoint shoreFC2 centS
              let ws6 := setFC ws5 "shoreline_split" spl
              match addField spl "sows_dist_km" with
              | Except.error e => Except.error (ws6, e)
              | Except.ok splA =>
                let ws6a := setFC ws6 "shoreline_split" splA
                let splB := calcGeomLengthKm splA "sows_dist_km"
                let ws7 := setFC ws6a "shoreline_split" splB
                let ws8 := setFC ws7 "shoreline_lyr" splB
                match lookupFC ws8 sp with
                | none => Except.error (ws8, "ERROR 000732: dataset does not exist: " ++ sp)
                | some polyCur =>
                  let selected := selectCompletelyWithin splB polyCur
                  let ws9 := setFC ws8 "shorelines_split_select" selected
                  match lookupFC ws9 out2n with
                  | none => Except.error (ws9, "ERROR 000732: dataset does not exist: " ++ out2n)
                  | some fc2cur =>
                    let out3n := sp ++ "_SOWS_Stats"
                    let fc3 := summarizeWithin fc2cur selected true distSumFields "KILOMETERS"
                    let ws10 := setFC ws9 out3n fc3
                    match runTidy fc3 tidyOps with
                    | Except.error pe => Except.error (setFC ws10 out3n pe.1, pe.2)
                    | Except.ok fc3f => Except.ok (setFC ws10 out3n fc3f)

/-- `get_sows_stats(summary_polygons, sows_fc, shoreline_fc)`.  The two
`arcpy.Describe` calls (source lines 35-37) precede the `try`, so a
missing input dataset there propagates to the caller; everything else is
wrapped and on failure the function prints "Processing error: ", the
engine message buffer and the exception text (in the model the buffer
holds the failing tool's error) and returns normally.  The result pairs
the workspace after the run with the printed log. -/
def get_sows_stats (ws : Workspace) (summary_polygons sows_fc shoreline_fc : String) :
    Except String (Workspace × List String) :=
  match lookupFC ws summary_polygons with
  | none => Except.error ("Describe failed: dataset does not exist: " ++ summary_polygons)
  | some polyFC =>
    match lookupFC ws sows_fc with
    | none => Except.error ("Describe failed: dataset does not exist: " ++ sows_fc)
    | some sowsFC =>
      match sowsBody ws summary_polygons sows_fc shoreline_fc polyFC sowsFC with
      | Except.ok wOut =>
        Except.ok (wOut,
          ["Analysis for count, size, spacing, and density of SOWS within " ++
             summary_polygons ++ " complete!",
           "Results: " ++ (summary_polygons ++ "_SOWS_Stats")])
      | Except.error we =>
        Except.ok (we.1, ["Processing error: ", we.2, we.2])

/-! ## The batch exporter -/

/-- `batch_export_to_csvs.py`: given the workspace's feature-class and
table listings, export each to `<name>.csv`; with no data, print the
no-data message and write nothing.  Result: produced CSV file names and
the printed log. -/
def batch_export_to_csvs (feature_classes tables : List String) :
    List String × List String :=
  if feature_classes.isEmpty && tables.isEmpty then
    ([], ["No data found in geodatabase."])
  else
    ((feature_classes ++ tables).map (fun item => item ++ ".csv"),
     ((feature_classes ++ tables).map (fun item =>
        "Exporting " ++ item ++ " to " ++ item ++ ".csv")) ++ ["Export completed."])

/-! ## Infrastructure lemmas: workspace lookups and dataset names -/

theorem lookupFC_setFC_same (ws : Workspace) (n : String) (fc : FC) :
    lookupFC (setFC ws n fc) n = some fc := by
  simp [setFC, lookupFC]

theorem lookupFC_setFC_ne (ws : Workspace) {m n : String} (fc : FC) (h : m ≠ n) :
    lookupFC (setFC ws m fc) n = lookupFC ws n := by
  simp [setFC, lookupFC, h]

/-- A string append `p ++ s` cannot equal `t` when `s` is not a suffix of
`t` — the tool for separating namespaced dataset names from fixed ones. -/
theorem append_ne_of_not_suffix (p : String) {s t : String}
    (h : ¬ (s.data <:+ t.data)) : p ++ s ≠ t := by
  intro he
  exact h ⟨p.data, by rw [← String.data_append]; exact congrArg String.data he⟩

/-- Two differently-suffixed names agree only if the shorter suffix ends
the longer one. -/
theorem append_ne_append (p q : String) {s t : String}
    (hlen : s.data.length ≤ t.data.length) (h : ¬ (s.data <:+ t.data)) :
    p ++ t ≠ q ++ s := by
  intro he
  have hd : p.data ++ t.data = q.data ++ s.data := by
    rw [← String.data_append, ← String.data_append]; exact congrArg String.data he
  have ht : t.data <:+ q.data ++ s.data := hd ▸ List.suffix_append p.data t.data
  have hs : s.data <:+ q.data ++ s.data := List.suffix_append q.data s.data
  exact h (List.suffix_of_suffix_length_le hs ht hlen)

theorem append_left_inj {p s t : String} (h : p ++ s = p ++ t) : s = t := by
  have hd := congrArg String.data h
  rw [String.data_append, String.data_append] at hd
  have := List.append_cancel_left hd
  exact String.ext this

theorem append_right_inj {p q s : String} (h : p ++ s = q ++ s) : p = q := by
  have hd := congrArg String.data h
  rw [String.data_append, String.data_append] at hd
  have := List.append_cancel_right hd
  exact String.ext this

theorem ne_append_of_length {p s : String} (h : s.data.length ≠ 0) : p ≠ p ++ s := by
  intro he
  have hl := congrArg String.length he
  rw [String.length_append] at hl
  have : s.length = 0 := by omega
  exact h this

/-- The snap-environment name is never one of the datasets the pipeline
writes before the snap step. -/
theorem snapTarget_not_written (sp : String) :
    sp ++ "_sum1" ≠ snapTargetName ∧ sp ++ "_sum2" ≠ snapTargetName ∧
    "sows_centroids" ≠ snapTargetName := by
  refine ⟨append_ne_of_not_suffix sp (by decide), append_ne_of_not_suffix sp (by decide),
    by decide⟩

/-- `<poly>_sum2` is distinct from every fixed-name intermediate, for any
polygon-layer name. -/
theorem sum2_ne_fixed (sp : String) :
    sp ++ "_sum2" ≠ "sows_centroids" ∧ sp ++ "_sum2" ≠ "shoreline_split" ∧
    sp ++ "_sum2" ≠ "shoreline_lyr" ∧ sp ++ "_sum2" ≠ "shorelines_split_select" := by
  refine ⟨?_, ?_, ?_, ?_⟩ <;> exact append_ne_of_not_suffix sp (by decide)

/-- `<poly>_sum1` is distinct from every other name the pipeline writes. -/
theorem sum1_ne_rest (sp : String) :
    sp ++ "_sum1" ≠ sp ++ "_sum2" ∧ sp ++ "_sum1" ≠ sp ++ "_SOWS_Stats" ∧
    sp ++ "_sum1" ≠ "sows_centroids" ∧ sp ++ "_sum1" ≠ "shoreline_split" ∧
    sp ++ "_sum1" ≠ "shoreline_lyr" ∧ sp ++ "_sum1" ≠ "shorelines_split_select" := by
  refine ⟨fun h => by simpa using append_left_inj h,
    (append_ne_append sp sp (by decide) (by decide)).symm, ?_, ?_, ?_, ?_⟩ <;>
    exact append_ne_of_not_suffix sp (by decide)

/-- `<poly>_SOWS_Stats` is distinct from `<poly>_sum2` and from every
fixed-name intermediate. -/
theorem stats_ne_rest (sp : String) :
    sp ++ "_SOWS_Stats" ≠ sp ++ "_sum2" ∧ sp ++ "_SOWS_Stats" ≠ "sows_centroids" ∧
    sp ++ "_SOWS_Stats" ≠ "shoreline_split" ∧ sp ++ "_SOWS_Stats" ≠ "shoreline_lyr" ∧
    sp ++ "_SOWS_Stats" ≠ "shorelines_split_select" := by
  refine ⟨append_ne_append sp sp (by decide) (by decide), ?_, ?_, ?_, ?_⟩ <;>
    exact append_ne_of_not_suffix sp (by decide)

/-! ## Reserved engine field names and clean inputs

The pipeline's field plumbing assumes the input layers do not already use
the engine-generated or semantic field names it is about to create; an
input violating this would shift the generated names (`Polygon_Count_1`
instead of `Polygon_Count`, ...).  `cleanFC` states that assumption. -/

/-- All field names the pipeline generates or renames to. -/
def reservedNames : List String :=
  ["Polygon_Count", "Polygon_Count_1", "Polyline_Count", "Polyline_Count_1",
   "Point_Count", "sum_Area_SQUAREKILOMETERS", "sum_Length_KILOMETERS",
   "sum_Length_KILOMETERS_1", "density_sows_km", "sows_dist_km",
   "mean_Area_M", "sum_Area_M", "min_Area_M", "max_Area_M", "std_Area_M",
   "mean_sows_dist_km", "sum_sows_dist_km", "min_sows_dist_km",
   "max_sows_dist_km", "std_sows_dist_km", "sows_count", "total_shoreline_km"]

/-- An input layer is clean when neither its schema nor its attribute keys
use a reserved engine field name. -/
def cleanFC (fc : FC) : Bool :=
  fc.fields.all (fun fd => !(reservedNames.contains fd.name)) &&
  fc.rows.all (fun r => r.attrs.all (fun kv => !(reservedNames.contains kv.1)))

theorem cleanFC_fields {fc : FC} (h : cleanFC fc = true) :
    ∀ fd ∈ fc.fields, reservedNames.contains fd.name = false := by
  intro fd hfd
  have h1 := (Bool.and_eq_true _ _ |>.mp h).1
  rw [List.all_eq_true] at h1
  simpa using h1 fd hfd

/-- On a clean schema no field bears a reserved name. -/
theorem any_name_eq_false {flds : List FieldDef}
    (h : ∀ fd ∈ flds, reservedNames.contains fd.name = false) {n : String}
    (hn : reservedNames.contains n = true) :
    flds.any (fun fd => fd.name = n) = false := by
  rw [List.any_eq_false]
  intro fd hfd
  simp only [decide_eq_true_eq]
  intro he
  have hc := h fd hfd
  rw [he, hn] at hc
  simp at hc

/-- On a clean schema a reserved name is not among the taken names. -/
theorem contains_map_name_false {flds : List FieldDef}
    (h : ∀ fd ∈ flds, reservedNames.contains fd.name = false) {n : String}
    (hn : reservedNames.contains n = true) :
    (flds.map (fun fd => fd.name)).contains n = false := by
  by_contra hb
  rw [Bool.not_eq_false] at hb
  have hm : n ∈ flds.map (fun fd => fd.name) := by simpa using hb
  obtain ⟨fd, hfd, he⟩ := List.mem_map.mp hm
  have hc := h fd hfd
  rw [he, hn] at hc
  simp at hc

theorem freshFieldName_eq_self {taken : List String} {base : String}
    (h : taken.contains base = false) : freshFieldName taken base = base := by
  have h' : base ∉ taken := by simpa using h
  simp [freshFieldName, h']

theorem freshFieldName_eq_one {taken : List String} {base : String}
    (h1 : taken.contains base = true)
    (h2 : taken.contains (base ++ "_1") = false) :
    freshFieldName taken base = base ++ "_1" := by
  have h1' : base ∈ taken := by simpa using h1
  have h2' : base ++ "_1" ∉ taken := by simpa using h2
  have hc : base ++ "_" ++ toString (1 : Nat) = base ++ "_1" := by
    rw [String.append_assoc]
    rfl
  simp [freshFieldName, freshAux, hc, h1', h2']

/-! ## Behaviour lemmas for the individual engine operations -/

theorem addField_ok_iff (fc : FC) (n : String) (fc2 : FC) :
    addField fc n = Except.ok fc2 ↔
      fc.fields.any (fun fd => fd.name = n) = false ∧ fc2 = addFieldOk fc n := by
  unfold addField
  split
  · rename_i h
    constructor
    · intro hbad
      cases hbad
    · rintro ⟨hfalse, _⟩
      rw [h] at hfalse
      cases hfalse
  · rename_i h
    rw [Bool.not_eq_true] at h
    constructor
    · intro hok
      cases hok
      exact ⟨h, rfl⟩
    · rintro ⟨_, he⟩
      rw [he]

theorem calcDensityRows_ok_length {t n d : String} {rows rows2 : List Feature}
    (h : calcDensityRows t n d rows = Except.ok rows2) : rows2.length = rows.length := by
  induction rows generalizing rows2 with
  | nil =>
    simp only [calcDensityRows] at h
    cases h
    rfl
  | cons r rest ih =>
    simp only [calcDensityRows] at h
    split at h
    · rename_i nv dv hnv hdv
      split at h
      · cases h
      · split at h
        · cases h
        · rename_i rs hrec
          cases h
          simp [ih hrec]
    · cases h

theorem calcDensityRows_ok_get {t n d : String} {rows rows2 : List Feature}
    (h : calcDensityRows t n d rows = Except.ok rows2) (i : Nat) (hi : i < rows.length) :
    ∃ nv dv, (rows.get ⟨i, hi⟩).get n = some nv ∧ (rows.get ⟨i, hi⟩).get d = some dv ∧
      dv.isZero = false ∧ ∃ hi2 : i < rows2.length,
        rows2.get ⟨i, hi2⟩ = setAttr (rows.get ⟨i, hi⟩) t (some (Q.div nv dv)) := by
  induction rows generalizing rows2 i with
  | nil => exact absurd hi (by simp)
  | cons r rest ih =>
    simp only [calcDensityRows] at h
    split at h
    · rename_i nv dv hnv hdv
      split at h
      · cases h
      · rename_i hz
        split at h
        · cases h
        · rename_i rs hrec
          cases h
          cases i with
          | zero => exact ⟨nv, dv, hnv, hdv, by simpa using hz, by simp, rfl⟩
          | succ j =>
            have hj : j < rest.length := by simpa using hi
            obtain ⟨nv2, dv2, h1, h2, h3, hj2, h4⟩ := ih hrec j hj
            exact ⟨nv2, dv2, h1, h2, h3, by simpa using hj2, h4⟩
    · cases h

/-- The schema effect of one tidying call, as a total function. -/
def tidyFieldsStep (flds : List FieldDef) : TidyOp → List FieldDef
  | TidyOp.alterF o n2 a => flds.map (fun fd => if fd.name = o then FieldDef.mk n2 a else fd)
  | TidyOp.deleteF names => flds.filter (fun fd => !(names.contains fd.name))

theorem applyTidy_ok_fields {fc : FC} {op : TidyOp} {fc2 : FC}
    (h : applyTidy fc op = Except.ok fc2) : fc2.fields = tidyFieldsStep fc.fields op := by
  cases op with
  | alterF o n2 a =>
    simp only [applyTidy] at h
    split at h
    · cases h
      rfl
    · cases h
  | deleteF names =>
    simp only [applyTidy] at h
    split at h
    · cases h
      rfl
    · cases h

theorem runTidy_ok_fields {fc : FC} {ops : List TidyOp} {fc2 : FC}
    (h : runTidy fc ops = Except.ok fc2) :
    fc2.fields = ops.foldl tidyFieldsStep fc.fields := by
  induction ops generalizing fc with
  | nil =>
    simp only [runTidy] at h
    cases h
    rfl
  | cons op rest ih =>
    simp only [runTidy] at h
    split at h
    · cases h
    · rename_i fcm heq
      rw [ih h, List.foldl_cons, applyTidy_ok_fields heq]

/-- The names a tidying call touches, as far as the schema of a clean
input layer is concerned. -/
def opReservedOk : TidyOp → Bool
  | TidyOp.alterF o _ _ => reservedNames.contains o
  | TidyOp.deleteF names => names.all (fun n => reservedNames.contains n)

theorem tidyFieldsStep_append {base lits : List FieldDef} {op : TidyOp}
    (hb : ∀ fd ∈ base, reservedNames.contains fd.name = false)
    (hop : opReservedOk op = true) :
    tidyFieldsStep (base ++ lits) op = base ++ tidyFieldsStep lits op := by
  cases op with
  | alterF o n2 a =>
    simp only [tidyFieldsStep, List.map_append]
    congr 1
    have : base.map (fun fd => if fd.name = o then FieldDef.mk n2 a else fd) = base.map id :=
      List.map_congr_left (fun fd hfd => by
        rw [if_neg, id]
        intro he
        have hc := hb fd hfd
        rw [he] at hc
        rw [opReservedOk] at hop
        rw [hop] at hc
        simp at hc)
    rw [this, List.map_id]
  | deleteF names =>
    simp only [tidyFieldsStep, List.filter_append]
    congr 1
    apply List.filter_eq_self.mpr
    intro fd hfd
    have hnc : names.contains fd.name = false := by
      by_contra hbc
      rw [Bool.not_eq_false] at hbc
      have hmem : fd.name ∈ names := by simpa using hbc
      rw [opReservedOk, List.all_eq_true] at hop
      have hr := hop fd.name hmem
      have hc := hb fd hfd
      rw [(by simpa using hr : reservedNames.contains fd.name = true)] at hc
      simp at hc
    simpa using hnc

theorem tidyFold_append {base : List FieldDef}
    (hb : ∀ fd ∈ base, reservedNames.contains fd.name = false) :
    ∀ (ops : List TidyOp) (lits : List FieldDef), ops.all opReservedOk = true →
      ops.foldl tidyFieldsStep (base ++ lits) = base ++ ops.foldl tidyFieldsStep lits := by
  intro ops
  induction ops with
  | nil => intro lits _; rfl
  | cons op rest ih =>
    intro lits hall
    rw [List.all_cons, Bool.and_eq_true] at hall
    rw [List.foldl_cons, List.foldl_cons, tidyFieldsStep_append hb hall.1, ih _ hall.2]

/-! ## Workspace lookup equivalence

The pipeline rewrites some dataset names several times in a row
(overwrite-output); for reasoning, such adjacent duplicate writes collapse
to the last one, up to `lookupFC`. -/

/-- Two workspaces are lookup-equivalent when every name resolves alike. -/
def wsEquiv (A B : Workspace) : Prop := ∀ x, lookupFC A x = lookupFC B x

theorem wsEquiv_refl (A : Workspace) : wsEquiv A A := fun _ => rfl

theorem wsEquiv_trans {A B C : Workspace} (h1 : wsEquiv A B) (h2 : wsEquiv B C) :
    wsEquiv A C := fun x => (h1 x).trans (h2 x)

theorem wsEquiv_set {A B : Workspace} (h : wsEquiv A B) (n : String) (fc : FC) :
    wsEquiv (setFC A n fc) (setFC B n fc) := by
  intro x
  by_cases hx : n = x
  · simp [setFC, lookupFC, hx]
  · simp [setFC, lookupFC, hx, h x]

theorem wsEquiv_collapse (w : Workspace) (n : String) (a b : FC) :
    wsEquiv (setFC (setFC w n a) n b) (setFC w n b) := by
  intro x
  by_cases hx : n = x <;> simp [setFC, lookupFC, hx]

theorem wsEquiv_collapse3 (w : Workspace) (n : String) (a b c : FC) :
    wsEquiv (setFC (setFC (setFC w n a) n b) n c) (setFC w n c) :=
  wsEquiv_trans (wsEquiv_set (wsEquiv_collapse w n a b) n c) (wsEquiv_collapse w n b c)

/-! ## Named stages of the pipeline

Abbreviations for the values the pipeline computes, used to state the
run-inversion lemma and the claim theorems compactly. -/

/-- Stage 1: `<poly>_sum1` (count and area statistics per region). -/
def fc1Of (polyFC sowsFC : FC) : FC :=
  summarizeWithin polyFC sowsFC true areaSumFields "SQUAREKILOMETERS"

/-- Stage 2 raw: `<poly>_sum2` before the density field. -/
def fc2rawOf (polyFC sowsFC shoreFC : FC) : FC :=
  summarizeWithin (fc1Of polyFC sowsFC) shoreFC true [] "KILOMETERS"

/-- Stage 2 with the null density field added. -/
def fc2aOf (polyFC sowsFC shoreFC : FC) : FC :=
  addFieldOk (fc2rawOf polyFC sowsFC shoreFC) "density_sows_km"

/-- The snapped centroid layer (`sows_centroids` after `Snap`). -/
def centSnapOf (sowsCur noaaFC : FC) : FC :=
  snapFeatures (featureToPoint sowsCur) noaaFC 500

/-- The split shoreline before its length field. -/
def splitRawOf (shoreFC2 sowsCur noaaFC : FC) : FC :=
  splitLineAtPoint shoreFC2 (centSnapOf sowsCur noaaFC)

/-- `shoreline_split` with `sows_dist_km` added and calculated. -/
def splitCalcOf (shoreFC2 sowsCur noaaFC : FC) : FC :=
  calcGeomLengthKm (addFieldOk (splitRawOf shoreFC2 sowsCur noaaFC) "sows_dist_km")
    "sows_dist_km"

/-- `shorelines_split_select`: the segments completely within a region. -/
def selectedOf (shoreFC2 sowsCur noaaFC polyCur : FC) : FC :=
  selectCompletelyWithin (splitCalcOf shoreFC2 sowsCur noaaFC) polyCur

/-- Stage 3 raw: `<poly>_SOWS_Stats` before field tidying. -/
def fc3Of (fc2b selected : FC) : FC :=
  summarizeWithin fc2b selected true distSumFields "KILOMETERS"

/-- The workspace after a successful run, with duplicate overwrites
collapsed: the seven datasets the pipeline leaves behind. -/
def wsFinalOf (ws : Workspace) (sp : String) (fc1 fc2b centS splB selected fc3f : FC) :
    Workspace :=
  setFC (setFC (setFC (setFC (setFC (setFC (setFC ws (sp ++ "_sum1") fc1)
    (sp ++ "_sum2") fc2b) "sows_centroids" centS) "shoreline_split" splB)
    "shoreline_lyr" splB) "shorelines_split_select" selected) (sp ++ "_SOWS_Stats") fc3f

set_option maxHeartbeats 1600000 in
/-- Inversion of a successful run: a run that ends in `Except.ok`
resolved its datasets, added its density field, computed the density on
every row, split and selected the shoreline, ran the tidying calls, and
the resulting workspace resolves exactly like `wsFinalOf` applied to the
stage values. -/
theorem sowsBody_ok_elim {ws : Workspace} {sp sows shore : String} {polyFC sowsFC : FC}
    {wOut : Workspace} (hbody : sowsBody ws sp sows shore polyFC sowsFC = Except.ok wOut) :
    ∃ shoreFC fc2b sowsCur noaaFC shoreFC2 polyCur fc3f,
      lookupFC (setFC ws (sp ++ "_sum1") (fc1Of polyFC sowsFC)) shore = some shoreFC ∧
      (fc2rawOf polyFC sowsFC shoreFC).fields.any
        (fun fd => fd.name = "density_sows_km") = false ∧
      calcDensityField (fc2aOf polyFC sowsFC shoreFC) "density_sows_km" "Polygon_Count"
        "sum_Length_KILOMETERS" = Except.ok fc2b ∧
      lookupFC (setFC (setFC ws (sp ++ "_sum1") (fc1Of polyFC sowsFC)) (sp ++ "_sum2") fc2b)
        sows = some sowsCur ∧
      lookupFC ws snapTargetName = some noaaFC ∧
      lookupFC (setFC (setFC (setFC ws (sp ++ "_sum1") (fc1Of polyFC sowsFC))
        (sp ++ "_sum2") fc2b) "sows_centroids" (centSnapOf sowsCur noaaFC)) shore =
        some shoreFC2 ∧
      (splitRawOf shoreFC2 sowsCur noaaFC).fields.any
        (fun fd => fd.name = "sows_dist_km") = false ∧
      lookupFC (setFC (setFC (setFC (setFC (setFC ws (sp ++ "_sum1") (fc1Of polyFC sowsFC))
        (sp ++ "_sum2") fc2b) "sows_centroids" (centSnapOf sowsCur noaaFC))
        "shoreline_split" (splitCalcOf shoreFC2 sowsCur noaaFC))
        "shoreline_lyr" (splitCalcOf shoreFC2 sowsCur noaaFC)) sp = some polyCur ∧
      runTidy (fc3Of fc2b (selectedOf shoreFC2 sowsCur noaaFC polyCur)) tidyOps =
        Except.ok fc3f ∧
      wsEquiv wOut (wsFinalOf ws sp (fc1Of polyFC sowsFC) fc2b (centSnapOf sowsCur noaaFC)
        (splitCalcOf shoreFC2 sowsCur noaaFC) (selectedOf shoreFC2 sowsCur noaaFC polyCur)
        fc3f) := by
  simp only [sowsBody] at hbody
  split at hbody
  · cases hbody
  · rename_i shoreFC hshore
    split at hbody
    · cases hbody
    · rename_i fc2a haddf
      rw [addField_ok_iff] at haddf
      obtain ⟨hany1, hfc2a⟩ := haddf
      subst hfc2a
      split at hbody
      · cases hbody
      · rename_i fc2b hcalc
        split at hbody
        · cases hbody
        · rename_i sowsCur hsows
          split at hbody
          · cases hbody
          · rename_i noaaFC hnoaa
            split at hbody
            · cases hbody
            · rename_i shoreFC2 hshore2
              split at hbody
              · cases hbody
              · rename_i splA haddf2
                rw [addField_ok_iff] at haddf2
                obtain ⟨hany2, hsplA⟩ := haddf2
                subst hsplA
                split at hbody
                · cases hbody
                · rename_i polyCur hsp
                  split at hbody
                  · cases hbody
                  · rename_i fc2cur hout2
                    split at hbody
                    · cases hbody
                    · rename_i fc3f htidy
                      cases hbody
                      -- normalise the workspaces appearing in the
                      -- collected hypotheses.  Shorthands for the stage
                      -- values and the duplicate-collapsed chains:
                      have e2 : wsEquiv
                          (setFC (setFC (setFC (setFC ws (sp ++ "_sum1")
                            (fc1Of polyFC sowsFC)) (sp ++ "_sum2")
                            (fc2rawOf polyFC sowsFC shoreFC)) (sp ++ "_sum2")
                            (fc2aOf polyFC sowsFC shoreFC)) (sp ++ "_sum2") fc2b)
                          (setFC (setFC ws (sp ++ "_sum1") (fc1Of polyFC sowsFC))
                            (sp ++ "_sum2") fc2b) :=
                        wsEquiv_collapse3 _ _ _ _ _
                      have e5 : wsEquiv
                          (setFC (setFC (setFC (setFC (setFC (setFC ws (sp ++ "_sum1")
                            (fc1Of polyFC sowsFC)) (sp ++ "_sum2")
                            (fc2rawOf polyFC sowsFC shoreFC)) (sp ++ "_sum2")
                            (fc2aOf polyFC sowsFC shoreFC)) (sp ++ "_sum2") fc2b)
                            "sows_centroids" (featureToPoint sowsCur))
                            "sows_centroids" (centSnapOf sowsCur noaaFC))
                          (setFC (setFC (setFC ws (sp ++ "_sum1") (fc1Of polyFC sowsFC))
                            (sp ++ "_sum2") fc2b) "sows_centroids"
                            (centSnapOf sowsCur noaaFC)) :=
                        wsEquiv_trans (wsEquiv_collapse _ _ _ _) (wsEquiv_set e2 _ _)
                      have e7 : wsEquiv
                          (setFC (setFC (setFC (setFC (setFC (setFC (setFC (setFC
                            (setFC ws (sp ++ "_sum1") (fc1Of polyFC sowsFC))
                            (sp ++ "_sum2") (fc2rawOf polyFC sowsFC shoreFC))
                            (sp ++ "_sum2") (fc2aOf polyFC sowsFC shoreFC))
                            (sp ++ "_sum2") fc2b)
                            "sows_centroids" (featureToPoint sowsCur))
                            "sows_centroids" (centSnapOf sowsCur noaaFC))
                            "shoreline_split" (splitRawOf shoreFC2 sowsCur noaaFC))
                            "shoreline_split"
                              (addFieldOk (splitRawOf shoreFC2 sowsCur noaaFC) "sows_dist_km"))
                            "shoreline_split" (splitCalcOf shoreFC2 sowsCur noaaFC))
                          (setFC (setFC (setFC (setFC ws (sp ++ "_sum1")
                            (fc1Of polyFC sowsFC)) (sp ++ "_sum2") fc2b)
                            "sows_centroids" (centSnapOf sowsCur noaaFC))
                            "shoreline_split" (splitCalcOf shoreFC2 sowsCur noaaFC)) :=
                        wsEquiv_trans (wsEquiv_collapse3 _ _ _ _ _) (wsEquiv_set e5 _ _)
                      have e8 := wsEquiv_set e7 "shoreline_lyr"
                        (splitCalcOf shoreFC2 sowsCur noaaFC)
                      have e9 := wsEquiv_set e8 "shorelines_split_select"
                        (selectedOf shoreFC2 sowsCur noaaFC polyCur)
                      -- the `<poly>_sum2` re-read resolves to the density
                      -- layer just written
                      have hout2n := (e9 (sp ++ "_sum2")).symm.trans hout2
                      rw [lookupFC_setFC_ne _ _ ((sum2_ne_fixed sp).2.2.2).symm,
                        lookupFC_setFC_ne _ _ ((sum2_ne_fixed sp).2.2.1).symm,
                        lookupFC_setFC_ne _ _ ((sum2_ne_fixed sp).2.1).symm,
                        lookupFC_setFC_ne _ _ ((sum2_ne_fixed sp).1).symm,
                        lookupFC_setFC_same] at hout2n
                      have hcur := Option.some.inj hout2n
                      subst hcur
                      -- normalise the remaining dataset resolutions
                      have hsowsn := (e2 sows).symm.trans hsows
                      rw [lookupFC_setFC_ne _ _ (snapTarget_not_written sp).2.2,
                        lookupFC_setFC_ne _ _ (snapTarget_not_written sp).2.1,
                        lookupFC_setFC_ne _ _ (snapTarget_not_written sp).2.1,
                        lookupFC_setFC_ne _ _ (snapTarget_not_written sp).2.1,
                        lookupFC_setFC_ne _ _ (snapTarget_not_written sp).1] at hnoaa
                      have hshore2n := (e5 shore).symm.trans hshore2
                      have hspn := (e8 sp).symm.trans hsp
                      exact ⟨shoreFC, fc2b, sowsCur, noaaFC, shoreFC2, polyCur, fc3f,
                        hshore, hany1, hcalc, hsowsn, hnoaa, hshore2n, hany2, hspn, htidy,
                        wsEquiv_trans
                          (wsEquiv_collapse _ (sp ++ "_SOWS_Stats") _ fc3f)
                          (wsEquiv_set e9 (sp ++ "_SOWS_Stats") fc3f)⟩

/-! ## Concrete example workspaces

Small workspaces used to witness the theorems and to exhibit
counterexamples.  The dataset names are the ones the script's main block
actually passes (`Counties_StatePlane`, `NOAA_SOWS_Filtered_v3`,
`noaa_shoreline_diss`). -/

/-- Two adjacent coastal regions covering cells 0-4 and 5-9. -/
def demoPoly : FC := FC.mk ShapeType.polygon [FieldDef.mk "RegionId" "RegionId"]
  [Feature.mk (Geom.mk [0, 1, 2, 3, 4]) [("RegionId", some 1)],
   Feature.mk (Geom.mk [5, 6, 7, 8, 9]) [("RegionId", some 2)]]

/-- Two structures with areas 10 and 20, sitting at cells 2 and 5. -/
def demoSows : FC := FC.mk ShapeType.polygon [FieldDef.mk "Area_M" "Area_M"]
  [Feature.mk (Geom.mk [2]) [("Area_M", some 10)],
   Feature.mk (Geom.mk [5]) [("Area_M", some 20)]]

/-- A single shoreline feature running through cells 0-9. -/
def demoShore : FC := FC.mk ShapeType.polyline []
  [Feature.mk (Geom.mk [0, 1, 2, 3, 4, 5, 6, 7, 8, 9]) []]

/-- The well-behaved demo workspace: every region crosses the shoreline. -/
def demoWS : Workspace :=
  [("Counties_StatePlane", demoPoly), ("NOAA_SOWS_Filtered_v3", demoSows),
   ("noaa_shoreline_diss", demoShore)]

/-- A summary layer whose second region (cell 100) touches neither the
shoreline nor any structure — the zero-shoreline scenario. -/
def zPoly : FC := FC.mk ShapeType.polygon [FieldDef.mk "RegionId" "RegionId"]
  [Feature.mk (Geom.mk [0, 1, 2, 3, 4]) [("RegionId", some 1)],
   Feature.mk (Geom.mk [100]) [("RegionId", some 2)]]

/-- A single structure for the zero-shoreline scenario. -/
def zSows : FC := FC.mk ShapeType.polygon [FieldDef.mk "Area_M" "Area_M"]
  [Feature.mk (Geom.mk [2]) [("Area_M", some 10)]]

/-- The zero-shoreline workspace: region 2 has no shoreline at all, so
the density calculation divides by a null total. -/
def zWS : Workspace :=
  [("Counties_StatePlane", zPoly), ("NOAA_SOWS_Filtered_v3", zSows),
   ("noaa_shoreline_diss", demoShore)]

/-- Region for the snap-target scenario: cells 10-13. -/
def aPoly : FC := FC.mk ShapeType.polygon [FieldDef.mk "RegionId" "RegionId"]
  [Feature.mk (Geom.mk [10, 11, 12, 13]) [("RegionId", some 1)]]

/-- One structure at cell 10 for the snap-target scenario. -/
def aSows : FC := FC.mk ShapeType.polygon [FieldDef.mk "Area_M" "Area_M"]
  [Feature.mk (Geom.mk [10]) [("Area_M", some 10)]]

/-- An alternative shoreline layer (cells 11 and 13), passed as the
`shoreline_fc` argument in the snap-target scenario. -/
def aAlt : FC := FC.mk ShapeType.polyline [] [Feature.mk (Geom.mk [11, 13]) []]

/-- The hardcoded `noaa_shoreline_diss` layer of the snap-target
scenario: a single cell at 12, farther from the structure than the
alternative shoreline's nearest point. -/
def aNoaa : FC := FC.mk ShapeType.polyline [] [Feature.mk (Geom.mk [12]) []]

/-- Workspace where the `shoreline_fc` argument (`alt_shoreline`) and the
hardcoded snap target (`noaa_shoreline_diss`) are different layers. -/
def aWS : Workspace :=
  [("Counties_StatePlane", aPoly), ("NOAA_SOWS_Filtered_v3", aSows),
   ("alt_shoreline", aAlt), ("noaa_shoreline_diss", aNoaa)]




/-! ## Claim theorems -/

/-- C6: for a workspace with N feature classes and M tables, a successful
batch-export run produces exactly N+M CSV files, each named
`<dataset>.csv` after its source dataset; an empty workspace produces
zero files and the "no data" message instead of an error. -/
theorem C6_batch_export :
    (∀ feature_classes tables : List String,
      (batch_export_to_csvs feature_classes tables).1 =
        (feature_classes ++ tables).map (fun item => item ++ ".csv") ∧
      (batch_export_to_csvs feature_classes tables).1.length =
        feature_classes.length + tables.length) ∧
    batch_export_to_csvs [] [] = ([], ["No data found in geodatabase."]) := by
  constructor
  · intro fcs tbls
    unfold batch_export_to_csvs
    split
    · rename_i h
      rw [Bool.and_eq_true] at h
      obtain ⟨h1, h2⟩ := h
      rw [List.isEmpty_iff] at h1 h2
      subst h1
      subst h2
      simp
    · constructor
      · rfl
      · simp
  · rfl

/-- C7: whenever the two input-describing lookups succeed, every failure
of a pipeline step is caught at the granularity of the whole
`get_sows_stats` call: the function always returns (never propagates),
on failure it prints the generic message, the engine message buffer and
the exception text, and it hands back the workspace exactly as it stood
at the failure — created layers kept, nothing rolled back, no retry. -/
theorem C7_catch_all (ws : Workspace) (sp sows shore : String) (polyFC sowsFC : FC)
    (h1 : lookupFC ws sp = some polyFC) (h2 : lookupFC ws sows = some sowsFC) :
    (∃ p, get_sows_stats ws sp sows shore = Except.ok p) ∧
    (∀ wf e, sowsBody ws sp sows shore polyFC sowsFC = Except.error (wf, e) →
      get_sows_stats ws sp sows shore = Except.ok (wf, ["Processing error: ", e, e])) ∧
    (∀ wOk, sowsBody ws sp sows shore polyFC sowsFC = Except.ok wOk →
      get_sows_stats ws sp sows shore = Except.ok (wOk,
        ["Analysis for count, size, spacing, and density of SOWS within " ++ sp ++
           " complete!", "Results: " ++ (sp ++ "_SOWS_Stats")])) := by
  simp only [get_sows_stats, h1, h2]
  refine ⟨?_, ?_, ?_⟩
  · cases hb : sowsBody ws sp sows shore polyFC sowsFC with
    | error we => exact ⟨_, rfl⟩
    | ok w => exact ⟨_, rfl⟩
  · intro wf e hb
    rw [hb]
  · intro wOk hb
    rw [hb]

/-- Witness for C7 at the concrete demo workspace. -/
theorem C7_catch_all_witness :
    ∃ p, get_sows_stats demoWS "Counties_StatePlane" "NOAA_SOWS_Filtered_v3"
      "noaa_shoreline_diss" = Except.ok p :=
  (C7_catch_all demoWS "Counties_StatePlane" "NOAA_SOWS_Filtered_v3" "noaa_shoreline_diss"
    demoPoly demoSows rfl rfl).1

/-- Implicit-argument variant of `lookupFC_setFC_ne`, convenient for simp. -/
theorem lookupFC_set_ne {ws : Workspace} {m n : String} {fc : FC} (h : m ≠ n) :
    lookupFC (setFC ws m fc) n = lookupFC ws n := by
  simp [setFC, lookupFC, h]

/-- Frame property of the pipeline body: whatever the outcome, every
dataset name outside `derivedNames sp` still resolves as before the run —
the body writes only derived names. -/
theorem sowsBody_writes (ws : Workspace) (sp sows shore : String) (polyFC sowsFC : FC)
    (n : String) (hn : ¬ n ∈ derivedNames sp) :
    ∀ res, sowsBody ws sp sows shore polyFC sowsFC = res →
      (∀ wf e, res = Except.error (wf, e) → lookupFC wf n = lookupFC ws n) ∧
      (∀ wOk, res = Except.ok wOk → lookupFC wOk n = lookupFC ws n) := by
  have hne : n ≠ sp ++ "_sum1" ∧ n ≠ sp ++ "_sum2" ∧ n ≠ "sows_centroids" ∧
      n ≠ "shoreline_split" ∧ n ≠ "shoreline_lyr" ∧ n ≠ "shorelines_split_select" ∧
      n ≠ sp ++ "_SOWS_Stats" := by
    simpa [derivedNames] using hn
  obtain ⟨q1, q2, q3, q4, q5, q6, q7⟩ := hne
  intro res hres
  simp only [sowsBody] at hres
  split at hres
  · cases hres
    refine ⟨fun wf e h => ?_, fun wOk h => by cases h⟩
    cases h
    simp only [lookupFC_set_ne (Ne.symm q1), lookupFC_set_ne (Ne.symm q2),
      lookupFC_set_ne (Ne.symm q3), lookupFC_set_ne (Ne.symm q4),
      lookupFC_set_ne (Ne.symm q5), lookupFC_set_ne (Ne.symm q6),
      lookupFC_set_ne (Ne.symm q7)]
  · split at hres
    · cases hres
      refine ⟨fun wf e h => ?_, fun wOk h => by cases h⟩
      cases h
      simp only [lookupFC_set_ne (Ne.symm q1), lookupFC_set_ne (Ne.symm q2),
        lookupFC_set_ne (Ne.symm q3), lookupFC_set_ne (Ne.symm q4),
        lookupFC_set_ne (Ne.symm q5), lookupFC_set_ne (Ne.symm q6),
        lookupFC_set_ne (Ne.symm q7)]
    · split at hres
      · cases hres
        refine ⟨fun wf e h => ?_, fun wOk h => by cases h⟩
        cases h
        simp only [lookupFC_set_ne (Ne.symm q1), lookupFC_set_ne (Ne.symm q2),
          lookupFC_set_ne (Ne.symm q3), lookupFC_set_ne (Ne.symm q4),
          lookupFC_set_ne (Ne.symm q5), lookupFC_set_ne (Ne.symm q6),
          lookupFC_set_ne (Ne.symm q7)]
      · split at hres
        · cases hres
          refine ⟨fun wf e h => ?_, fun wOk h => by cases h⟩
          cases h
          simp only [lookupFC_set_ne (Ne.symm q1), lookupFC_set_ne (Ne.symm q2),
            lookupFC_set_ne (Ne.symm q3), lookupFC_set_ne (Ne.symm q4),
            lookupFC_set_ne (Ne.symm q5), lookupFC_set_ne (Ne.symm q6),
            lookupFC_set_ne (Ne.symm q7)]
        · split at hres
          · cases hres
            refine ⟨fun wf e h => ?_, fun wOk h => by cases h⟩
            cases h
            simp only [lookupFC_set_ne (Ne.symm q1), lookupFC_set_ne (Ne.symm q2),
              lookupFC_set_ne (Ne.symm q3), lookupFC_set_ne (Ne.symm q4),
              lookupFC_set_ne (Ne.symm q5), lookupFC_set_ne (Ne.symm q6),
              lookupFC_set_ne (Ne.symm q7)]
          · split at hres
            · cases hres
              refine ⟨fun wf e h => ?_, fun wOk h => by cases h⟩
              cases h
              simp only [lookupFC_set_ne (Ne.symm q1), lookupFC_set_ne (Ne.symm q2),
                lookupFC_set_ne (Ne.symm q3), lookupFC_set_ne (Ne.symm q4),
                lookupFC_set_ne (Ne.symm q5), lookupFC_set_ne (Ne.symm q6),
                lookupFC_set_ne (Ne.symm q7)]
            · split at hres
              · cases hres
                refine ⟨fun wf e h => ?_, fun wOk h => by cases h⟩
                cases h
                simp only [lookupFC_set_ne (Ne.symm q1), lookupFC_set_ne (Ne.symm q2),
                  lookupFC_set_ne (Ne.symm q3), lookupFC_set_ne (Ne.symm q4),
                  lookupFC_set_ne (Ne.symm q5), lookupFC_set_ne (Ne.symm q6),
                  lookupFC_set_ne (Ne.symm q7)]
              · split at hres
                · cases hres
                  refine ⟨fun wf e h => ?_, fun wOk h => by cases h⟩
                  cases h
                  simp only [lookupFC_set_ne (Ne.symm q1), lookupFC_set_ne (Ne.symm q2),
                    lookupFC_set_ne (Ne.symm q3), lookupFC_set_ne (Ne.symm q4),
                    lookupFC_set_ne (Ne.symm q5), lookupFC_set_ne (Ne.symm q6),
                    lookupFC_set_ne (Ne.symm q7)]
                · split at hres
                  · cases hres
                    refine ⟨fun wf e h => ?_, fun wOk h => by cases h⟩
                    cases h
                    simp only [lookupFC_set_ne (Ne.symm q1), lookupFC_set_ne (Ne.symm q2),
                      lookupFC_set_ne (Ne.symm q3), lookupFC_set_ne (Ne.symm q4),
                      lookupFC_set_ne (Ne.symm q5), lookupFC_set_ne (Ne.symm q6),
                      lookupFC_set_ne (Ne.symm q7)]
                  · split at hres
                    · cases hres
                      refine ⟨fun wf e h => ?_, fun wOk h => by cases h⟩
                      cases h
                      simp only [lookupFC_set_ne (Ne.symm q1), lookupFC_set_ne (Ne.symm q2),
                        lookupFC_set_ne (Ne.symm q3), lookupFC_set_ne (Ne.symm q4),
                        lookupFC_set_ne (Ne.symm q5), lookupFC_set_ne (Ne.symm q6),
                        lookupFC_set_ne (Ne.symm q7)]
                    · cases hres
                      refine ⟨fun wf e h => ?_, fun wOk h => ?_⟩
                      · cases h
                      · cases h
                        simp only [lookupFC_set_ne (Ne.symm q1), lookupFC_set_ne (Ne.symm q2),
                          lookupFC_set_ne (Ne.symm q3), lookupFC_set_ne (Ne.symm q4),
                          lookupFC_set_ne (Ne.symm q5), lookupFC_set_ne (Ne.symm q6),
                          lookupFC_set_ne (Ne.symm q7)]

/-- C9: the three input layers are left unchanged by a run — every write
of the pipeline targets a derived dataset name, so as long as the input
names are not themselves derived names, the inputs resolve to the very
same layers afterwards (rows, geometries and fields included), whether
the run succeeded or failed. -/
theorem C9_inputs_unchanged (ws : Workspace) (sp sows shore : String) (polyFC sowsFC : FC)
    (h1 : lookupFC ws sp = some polyFC) (h2 : lookupFC ws sows = some sowsFC)
    (hsp : ¬ sp ∈ derivedNames sp) (hsows : ¬ sows ∈ derivedNames sp)
    (hshore : ¬ shore ∈ derivedNames sp) :
    ∀ w2 log, get_sows_stats ws sp sows shore = Except.ok (w2, log) →
      lookupFC w2 sp = some polyFC ∧ lookupFC w2 sows = some sowsFC ∧
      lookupFC w2 shore = lookupFC ws shore := by
  intro w2 log hg
  simp only [get_sows_stats, h1, h2] at hg
  cases hb : sowsBody ws sp sows shore polyFC sowsFC with
  | error we =>
    rw [hb] at hg
    cases hg
    have hsp2 := ((sowsBody_writes ws sp sows shore polyFC sowsFC sp hsp _ hb).1
      we.1 we.2 (by rw [← hb, hb])).trans h1
    have hsows2 := ((sowsBody_writes ws sp sows shore polyFC sowsFC sows hsows _ hb).1
      we.1 we.2 (by rw [← hb, hb])).trans h2
    have hshore2 := (sowsBody_writes ws sp sows shore polyFC sowsFC shore hshore _ hb).1
      we.1 we.2 (by rw [← hb, hb])
    exact ⟨hsp2, hsows2, hshore2⟩
  | ok wOk =>
    rw [hb] at hg
    cases hg
    have hsp2 := ((sowsBody_writes ws sp sows shore polyFC sowsFC sp hsp _ hb).2
      _ rfl).trans h1
    have hsows2 := ((sowsBody_writes ws sp sows shore polyFC sowsFC sows hsows _ hb).2
      _ rfl).trans h2
    have hshore2 := (sowsBody_writes ws sp sows shore polyFC sowsFC shore hshore _ hb).2
      _ rfl
    exact ⟨hsp2, hsows2, hshore2⟩

/-- The workspace a run of `get_sows_stats` hands back (empty on the
propagated describe failure, which the witnesses never hit). -/
def runWS (ws : Workspace) (a b c : String) : Workspace :=
  match get_sows_stats ws a b c with
  | Except.ok p => p.1
  | Except.error _ => []

/-- The log a run of `get_sows_stats` prints. -/
def runLog (ws : Workspace) (a b c : String) : List String :=
  match get_sows_stats ws a b c with
  | Except.ok p => p.2
  | Except.error _ => []

/-- Witness for C9 at the concrete demo workspace. -/
theorem C9_inputs_unchanged_witness :
    lookupFC (runWS demoWS "Counties_StatePlane" "NOAA_SOWS_Filtered_v3"
        "noaa_shoreline_diss") "Counties_StatePlane" = some demoPoly ∧
    lookupFC (runWS demoWS "Counties_StatePlane" "NOAA_SOWS_Filtered_v3"
        "noaa_shoreline_diss") "NOAA_SOWS_Filtered_v3" = some demoSows ∧
    lookupFC (runWS demoWS "Counties_StatePlane" "NOAA_SOWS_Filtered_v3"
        "noaa_shoreline_diss") "noaa_shoreline_diss" =
      lookupFC demoWS "noaa_shoreline_diss" := by
  have hg : get_sows_stats demoWS "Counties_StatePlane" "NOAA_SOWS_Filtered_v3"
      "noaa_shoreline_diss" = Except.ok
        (runWS demoWS "Counties_StatePlane" "NOAA_SOWS_Filtered_v3" "noaa_shoreline_diss",
         runLog demoWS "Counties_StatePlane" "NOAA_SOWS_Filtered_v3"
           "noaa_shoreline_diss") := rfl
  exact C9_inputs_unchanged demoWS "Counties_StatePlane" "NOAA_SOWS_Filtered_v3"
    "noaa_shoreline_diss" demoPoly demoSows rfl rfl (by decide) (by decide) (by decide)
    _ _ hg

/-- Fields and row count of a successful CalculateField call. -/
theorem calcDensityField_ok {fc : FC} {t n d : String} {fc2 : FC}
    (h : calcDensityField fc t n d = Except.ok fc2) :
    fc2.rows.length = fc.rows.length ∧ fc2.fields = fc.fields ∧ fc2.shape = fc.shape := by
  unfold calcDensityField at h
  split at h
  · cases h
  · rename_i rows2 hrows
    cases h
    exact ⟨calcDensityRows_ok_length hrows, rfl, rfl⟩

/-- The workspace after a run of the pipeline body (failure keeps the
workspace as at the failure; the witnesses only use successful runs). -/
def bodyWS (ws : Workspace) (a b c : String) (p s : FC) : Workspace :=
  match sowsBody ws a b c p s with
  | Except.ok w => w
  | Except.error we => we.1

theorem find?_rename_ne (attrs : List (String × Val)) (t k : String) (v : Val)
    (hk : k ≠ t) :
    (attrs.map (fun kv => if kv.1 = t then (t, v) else kv)).find?
      (fun kv => kv.1 = k) = attrs.find? (fun kv => kv.1 = k) := by
  induction attrs with
  | nil => rfl
  | cons kv rest ih =>
    rw [List.map_cons]
    by_cases he : kv.1 = t
    · have h1 : (decide ((if kv.1 = t then (t, v) else kv).1 = k)) = false := by
        rw [if_pos he]
        simpa using Ne.symm hk
      have h2 : (decide (kv.1 = k)) = false := by
        rw [he]
        simpa using Ne.symm hk
      simp only [List.find?_cons, h1, h2]
      exact ih
    · rw [if_neg he]
      cases hkv : decide (kv.1 = k) <;> simp only [List.find?_cons, hkv] <;> simp [ih]

theorem find?_rename_same (attrs : List (String × Val)) (t : String) (v : Val)
    (h : attrs.any (fun kv => kv.1 = t) = true) :
    (attrs.map (fun kv => if kv.1 = t then (t, v) else kv)).find?
      (fun kv => kv.1 = t) = some (t, v) := by
  induction attrs with
  | nil => simp at h
  | cons kv rest ih =>
    rw [List.map_cons]
    by_cases he : kv.1 = t
    · rw [if_pos he]
      simp
    · rw [if_neg he]
      have hd : (decide (kv.1 = t)) = false := by simpa using he
      simp only [List.find?_cons, hd]
      apply ih
      rw [List.any_cons] at h
      simpa [hd] using h

theorem get_setAttr_ne {r : Feature} {t k : String} {v : Val} (hk : k ≠ t) :
    (setAttr r t v).get k = r.get k := by
  rw [setAttr, Feature.get, Feature.get]
  show (match (r.attrs.map (fun kv => if kv.1 = t then (t, v) else kv)).find?
      (fun kv => kv.1 = k) with
    | some kv => kv.2
    | none => none) = _
  rw [find?_rename_ne r.attrs t k v hk]

theorem get_setAttr_same {r : Feature} {t : String} {v : Val}
    (h : r.attrs.any (fun kv => kv.1 = t) = true) :
    (setAttr r t v).get t = v := by
  rw [setAttr, Feature.get]
  show (match (r.attrs.map (fun kv => if kv.1 = t then (t, v) else kv)).find?
      (fun kv => kv.1 = t) with
    | some kv => kv.2
    | none => none) = _
  rw [find?_rename_same r.attrs t v h]

theorem addFieldOk_rows_key {fc : FC} {x : String} {r : Feature}
    (h : r ∈ (addFieldOk fc x).rows) : r.attrs.any (fun kv => kv.1 = x) = true := by
  rw [addFieldOk] at h
  obtain ⟨pre, _, hpre⟩ := List.mem_map.mp h
  rw [← hpre]
  simp

/-- C2 counterexample: in the zero-shoreline workspace `zWS`, the run
stops in the density step (the log opens with "Processing error: "), the
final stats layer is never produced, and the `_sum2` layer's first row
has shoreline length 5 (positive) and structure count 1 yet a null
density — the claim's `count / length` value is absent. -/
theorem C2_density_counterexample :
    (runLog zWS "Counties_StatePlane" "NOAA_SOWS_Filtered_v3"
      "noaa_shoreline_diss").take 1 = ["Processing error: "] ∧
    lookupFC (runWS zWS "Counties_StatePlane" "NOAA_SOWS_Filtered_v3"
      "noaa_shoreline_diss") ("Counties_StatePlane" ++ "_SOWS_Stats") = none ∧
    ∃ fc2x, lookupFC (runWS zWS "Counties_StatePlane" "NOAA_SOWS_Filtered_v3"
        "noaa_shoreline_diss") ("Counties_StatePlane" ++ "_sum2") = some fc2x ∧
      ∃ h0 : 0 < fc2x.rows.length,
        (fc2x.rows.get ⟨0, h0⟩).get "sum_Length_KILOMETERS" = some (Q.ofNat 5) ∧
        (Q.ofNat 5).isZero = false ∧
        (fc2x.rows.get ⟨0, h0⟩).get "Polygon_Count" = some (Q.ofNat 1) ∧
        (fc2x.rows.get ⟨0, h0⟩).get "density_sows_km" = none ∧
        some (Q.div (Q.ofNat 1) (Q.ofNat 5)) ≠ (none : Val) := by
  refine ⟨by decide, by decide, _, rfl, by decide, by decide, by decide, by decide,
    by decide⟩

/-- C2 (amended): on a successful run, every row of the `_sum2` layer —
the layer whose rows (including the density value) the final stats layer
inherits — has a non-null, nonzero aggregated shoreline length and a
density equal to the structure count divided by that length, exactly.
When any row has a zero or null shoreline length, the density
calculation raises instead (caught at function scope: see the
counterexample), so no layer with a null-density row for a positive
length, nor a divide-by-zero crash of the process, can result from a
completed run. -/
theorem C2_density_amended (ws : Workspace) (sp sows shore : String)
    (polyFC sowsFC : FC) (wOut : Workspace)
    (hbody : sowsBody ws sp sows shore polyFC sowsFC = Except.ok wOut) :
    ∃ fc2x, lookupFC wOut (sp ++ "_sum2") = some fc2x ∧
      ∀ i (hi : i < fc2x.rows.length),
        ∃ c l, (fc2x.rows.get ⟨i, hi⟩).get "Polygon_Count" = some c ∧
          (fc2x.rows.get ⟨i, hi⟩).get "sum_Length_KILOMETERS" = some l ∧
          l.isZero = false ∧
          (fc2x.rows.get ⟨i, hi⟩).get "density_sows_km" = some (Q.div c l) := by
  obtain ⟨shoreFC, fc2b, sowsCur, noaaFC, shoreFC2, polyCur, fc3f, hshoreL, hany1, hcalc,
    hsowsL, hnoaaL, hshore2L, hany2, hspL, htidy, hequ⟩ := sowsBody_ok_elim hbody
  refine ⟨fc2b, ?_, ?_⟩
  · rw [hequ (sp ++ "_sum2"), wsFinalOf,
      lookupFC_set_ne (stats_ne_rest sp).1,
      lookupFC_set_ne (Ne.symm (sum2_ne_fixed sp).2.2.2),
      lookupFC_set_ne (Ne.symm (sum2_ne_fixed sp).2.2.1),
      lookupFC_set_ne (Ne.symm (sum2_ne_fixed sp).2.1),
      lookupFC_set_ne (Ne.symm (sum2_ne_fixed sp).1),
      lookupFC_setFC_same]
  · intro i hi
    rw [calcDensityField] at hcalc
    split at hcalc
    · cases hcalc
    · rename_i rows2 hrows
      cases hcalc
      have hia : i < (fc2aOf polyFC sowsFC shoreFC).rows.length := by
        rw [← calcDensityRows_ok_length hrows]
        exact hi
      obtain ⟨nv, dv, hnum, hden, hnz, hi2, hrow⟩ := calcDensityRows_ok_get hrows i hia
      refine ⟨nv, dv, ?_, ?_, hnz, ?_⟩
      · show (rows2.get ⟨i, hi⟩).get "Polygon_Count" = some nv
        have : (⟨i, hi⟩ : Fin rows2.length) = ⟨i, hi2⟩ := rfl
        rw [this, hrow, get_setAttr_ne (by decide)]
        exact hnum
      · show (rows2.get ⟨i, hi⟩).get "sum_Length_KILOMETERS" = some dv
        have : (⟨i, hi⟩ : Fin rows2.length) = ⟨i, hi2⟩ := rfl
        rw [this, hrow, get_setAttr_ne (by decide)]
        exact hden
      · show (rows2.get ⟨i, hi⟩).get "density_sows_km" = some (Q.div nv dv)
        have : (⟨i, hi⟩ : Fin rows2.length) = ⟨i, hi2⟩ := rfl
        rw [this, hrow]
        exact get_setAttr_same (addFieldOk_rows_key
          (List.get_mem (fc2aOf polyFC sowsFC shoreFC).rows i hia))

/-- Witness for the amended C2 on the demo workspace. -/
theorem C2_density_amended_witness :
    ∃ fc2x, lookupFC (bodyWS demoWS "Counties_StatePlane" "NOAA_SOWS_Filtered_v3"
        "noaa_shoreline_diss" demoPoly demoSows) ("Counties_StatePlane" ++ "_sum2") =
      some fc2x ∧
      ∀ i (hi : i < fc2x.rows.length),
        ∃ c l, (fc2x.rows.get ⟨i, hi⟩).get "Polygon_Count" = some c ∧
          (fc2x.rows.get ⟨i, hi⟩).get "sum_Length_KILOMETERS" = some l ∧
          l.isZero = false ∧
          (fc2x.rows.get ⟨i, hi⟩).get "density_sows_km" = some (Q.div c l) :=
  C2_density_amended demoWS "Counties_StatePlane" "NOAA_SOWS_Filtered_v3"
    "noaa_shoreline_diss" demoPoly demoSows _ rfl

/-- C3: a split shoreline segment that is not completely contained in any
single summary-polygon region is selected into no region's spacing
statistics: it is absent from `shorelines_split_select`, and contributes
to no row of the final aggregation (whose per-region groups draw only
from that selection). -/
theorem C3_boundary_excluded (ws : Workspace) (sp sows shore : String)
    (polyFC sowsFC : FC) (wOut : Workspace)
    (h1 : lookupFC ws sp = some polyFC) (hsp : ¬ sp ∈ derivedNames sp)
    (hbody : sowsBody ws sp sows shore polyFC sowsFC = Except.ok wOut) :
    ∃ splx selx fc2x,
      lookupFC wOut "shoreline_split" = some splx ∧
      lookupFC wOut "shorelines_split_select" = some selx ∧
      lookupFC wOut (sp ++ "_sum2") = some fc2x ∧
      selx = selectCompletelyWithin splx polyFC ∧
      ∀ seg ∈ splx.rows,
        (∀ p ∈ polyFC.rows, Geom.within seg.geom p.geom = false) →
        seg ∉ selx.rows ∧ ∀ p2 ∈ fc2x.rows, seg ∉ contributing selx p2 := by
  have hq : sp ≠ sp ++ "_sum1" ∧ sp ≠ sp ++ "_sum2" ∧ sp ≠ "sows_centroids" ∧
      sp ≠ "shoreline_split" ∧ sp ≠ "shoreline_lyr" ∧ sp ≠ "shorelines_split_select" ∧
      sp ≠ sp ++ "_SOWS_Stats" := by
    simpa [derivedNames] using hsp
  obtain ⟨q1, q2, q3, q4, q5, q6, q7⟩ := hq
  obtain ⟨shoreFC, fc2b, sowsCur, noaaFC, shoreFC2, polyCur, fc3f, hshoreL, hany1, hcalc,
    hsowsL, hnoaaL, hshore2L, hany2, hspL, htidy, hequ⟩ := sowsBody_ok_elim hbody
  rw [lookupFC_set_ne (Ne.symm q5), lookupFC_set_ne (Ne.symm q4),
    lookupFC_set_ne (Ne.symm q3), lookupFC_set_ne (Ne.symm q2),
    lookupFC_set_ne (Ne.symm q1), h1] at hspL
  have hpc := Option.some.inj hspL
  subst hpc
  refine ⟨splitCalcOf shoreFC2 sowsCur noaaFC, selectedOf shoreFC2 sowsCur noaaFC polyFC,
    fc2b, ?_, ?_, ?_, rfl, ?_⟩
  · rw [hequ "shoreline_split", wsFinalOf,
      lookupFC_set_ne (stats_ne_rest sp).2.2.1,
      lookupFC_set_ne (by decide : "shorelines_split_select" ≠ "shoreline_split"),
      lookupFC_set_ne (by decide : "shoreline_lyr" ≠ "shoreline_split"),
      lookupFC_setFC_same]
  · rw [hequ "shorelines_split_select", wsFinalOf,
      lookupFC_set_ne (stats_ne_rest sp).2.2.2.2,
      lookupFC_setFC_same]
  · rw [hequ (sp ++ "_sum2"), wsFinalOf,
      lookupFC_set_ne (stats_ne_rest sp).1,
      lookupFC_set_ne (Ne.symm (sum2_ne_fixed sp).2.2.2),
      lookupFC_set_ne (Ne.symm (sum2_ne_fixed sp).2.2.1),
      lookupFC_set_ne (Ne.symm (sum2_ne_fixed sp).2.1),
      lookupFC_set_ne (Ne.symm (sum2_ne_fixed sp).1),
      lookupFC_setFC_same]
  · intro seg hseg hnot
    have hnotsel : seg ∉ (selectedOf shoreFC2 sowsCur noaaFC polyFC).rows := by
      intro hmem
      rw [selectedOf, selectCompletelyWithin] at hmem
      have hpred := (List.mem_filter.mp hmem).2
      obtain ⟨p, hp, hw⟩ := List.any_eq_true.mp hpred
      exact absurd hw (by rw [hnot p hp]; simp)
    refine ⟨hnotsel, fun p2 _ hmem => ?_⟩
    rw [contributing] at hmem
    exact hnotsel (List.mem_filter.mp hmem).1

/-- Witness for C3 on the demo workspace: the middle segment (cells
3-4-5) straddles the two regions, so it is dropped from the selection and
contributes to neither region's statistics group. -/
theorem C3_boundary_excluded_witness :
    ∃ splx selx,
      lookupFC (bodyWS demoWS "Counties_StatePlane" "NOAA_SOWS_Filtered_v3"
        "noaa_shoreline_diss" demoPoly demoSows) "shoreline_split" = some splx ∧
      lookupFC (bodyWS demoWS "Counties_StatePlane" "NOAA_SOWS_Filtered_v3"
        "noaa_shoreline_diss" demoPoly demoSows) "shorelines_split_select" = some selx ∧
      ∃ seg, seg ∈ splx.rows ∧ seg.geom = Geom.mk [3, 4, 5] ∧
        (∀ p ∈ demoPoly.rows, Geom.within seg.geom p.geom = false) ∧
        seg ∉ selx.rows := by
  have hb : sowsBody demoWS "Counties_StatePlane" "NOAA_SOWS_Filtered_v3"
      "noaa_shoreline_diss" demoPoly demoSows = Except.ok (bodyWS demoWS
        "Counties_StatePlane" "NOAA_SOWS_Filtered_v3" "noaa_shoreline_diss"
        demoPoly demoSows) := rfl
  obtain ⟨splx, selx, fc2x, hs1, hs2, _, _, hmain⟩ := C3_boundary_excluded demoWS
    "Counties_StatePlane" "NOAA_SOWS_Filtered_v3" "noaa_shoreline_diss" demoPoly demoSows
    _ rfl (by decide) hb
  refine ⟨splx, selx, hs1, hs2, ?_⟩
  have hsx : splx = FC.mk ShapeType.polyline [FieldDef.mk "sows_dist_km" "sows_dist_km"]
      [Feature.mk (Geom.mk [0, 1, 2]) [("sows_dist_km", some (Q.ofNat 3))],
       Feature.mk (Geom.mk [3, 4, 5]) [("sows_dist_km", some (Q.ofNat 3))],
       Feature.mk (Geom.mk [6, 7, 8, 9]) [("sows_dist_km", some (Q.ofNat 4))]] := by
    have hcomp : lookupFC (bodyWS demoWS "Counties_StatePlane" "NOAA_SOWS_Filtered_v3"
        "noaa_shoreline_diss" demoPoly demoSows) "shoreline_split" =
        some (FC.mk ShapeType.polyline [FieldDef.mk "sows_dist_km" "sows_dist_km"]
          [Feature.mk (Geom.mk [0, 1, 2]) [("sows_dist_km", some (Q.ofNat 3))],
           Feature.mk (Geom.mk [3, 4, 5]) [("sows_dist_km", some (Q.ofNat 3))],
           Feature.mk (Geom.mk [6, 7, 8, 9]) [("sows_dist_km", some (Q.ofNat 4))]]) := by
      decide
    rw [hcomp] at hs1
    exact (Option.some.inj hs1).symm
  refine ⟨Feature.mk (Geom.mk [3, 4, 5]) [("sows_dist_km", some (Q.ofNat 3))],
    by rw [hsx]; simp, rfl, by decide, ?_⟩
  exact (hmain (Feature.mk (Geom.mk [3, 4, 5]) [("sows_dist_km", some (Q.ofNat 3))])
    (by rw [hsx]; simp) (by decide)).1

/-- Correctness of the nearest-candidate fold: with any starting
accumulator, the result is a candidate (or the start), it is no farther
than any candidate, and no farther than the start. -/
theorem nearest_aux (c : Int) :
    ∀ (cand : List Int) (b : Option Int) (x : Int),
      cand.foldl (nearestStep c) b = some x →
      (x ∈ cand ∨ b = some x) ∧
      (∀ t ∈ cand, (c - x).natAbs ≤ (c - t).natAbs) ∧
      (∀ y, b = some y → (c - x).natAbs ≤ (c - y).natAbs) := by
  intro cand
  induction cand with
  | nil =>
    intro b x h
    rw [List.foldl_nil] at h
    refine ⟨Or.inr h, by simp, fun y hy => ?_⟩
    rw [h] at hy
    cases hy
    exact le_refl _
  | cons t rest ih =>
    intro b x h
    rw [List.foldl_cons] at h
    cases b with
    | none =>
      rw [(rfl : nearestStep c none t = some t)] at h
      obtain ⟨hmem, hmin, hinit⟩ := ih (some t) x h
      refine ⟨?_, ?_, ?_⟩
      · cases hmem with
        | inl hm => exact Or.inl (List.mem_cons_of_mem _ hm)
        | inr he =>
          cases he
          exact Or.inl (List.mem_cons_self _ _)
      · intro u hu
        rcases List.mem_cons.mp hu with hu | hu
        · rw [hu]
          exact hinit t rfl
        · exact hmin u hu
      · intro y hy
        cases hy
    | some bb =>
      rw [nearestStep] at h
      by_cases hlt : (c - t).natAbs < (c - bb).natAbs
      · rw [if_pos hlt] at h
        obtain ⟨hmem, hmin, hinit⟩ := ih (some t) x h
        refine ⟨?_, ?_, ?_⟩
        · cases hmem with
          | inl hm => exact Or.inl (List.mem_cons_of_mem _ hm)
          | inr he =>
            cases he
            exact Or.inl (List.mem_cons_self _ _)
        · intro u hu
          rcases List.mem_cons.mp hu with hu | hu
          · rw [hu]
            exact hinit t rfl
          · exact hmin u hu
        · intro y hy
          cases hy
          exact le_trans (hinit t rfl) (le_of_lt hlt)
      · rw [if_neg hlt] at h
        obtain ⟨hmem, hmin, hinit⟩ := ih (some bb) x h
        refine ⟨?_, ?_, ?_⟩
        · cases hmem with
          | inl hm => exact Or.inl (List.mem_cons_of_mem _ hm)
          | inr he => exact Or.inr he
        · intro u hu
          rcases List.mem_cons.mp hu with hu | hu
          · rw [hu]
            exact le_trans (hinit bb rfl) (le_of_not_lt hlt)
          · exact hmin u hu
        · intro y hy
          cases hy
          exact hinit _ rfl

/-- The nearest-candidate fold starting from a present accumulator never
comes back empty. -/
theorem nearest_fold_isSome (c : Int) :
    ∀ (cand : List Int) (bb : Int),
      (cand.foldl (nearestStep c) (some bb)).isSome = true := by
  intro cand
  induction cand with
  | nil => intro bb; rfl
  | cons t rest ih =>
    intro bb
    rw [List.foldl_cons, nearestStep]
    by_cases hlt : (c - t).natAbs < (c - bb).natAbs
    · rw [if_pos hlt]
      exact ih t
    · rw [if_neg hlt]
      exact ih bb

/-- Behaviour of one snap: a cell farther than the tolerance from every
candidate stays put; a cell within tolerance of some candidate moves to a
candidate at minimal distance. -/
theorem snapCell_spec (cand : List Int) (tol : Nat) (c : Int) :
    ((∀ t ∈ cand, ¬ (c - t).natAbs ≤ tol) → snapCell cand tol c = c) ∧
    (∀ t0 ∈ cand, (c - t0).natAbs ≤ tol →
      snapCell cand tol c ∈ cand ∧
      ∀ t ∈ cand, (c - snapCell cand tol c).natAbs ≤ (c - t).natAbs) := by
  constructor
  · intro hfar
    cases hn : nearestCell cand c with
    | none => rw [snapCell, hn]
    | some x =>
      obtain ⟨hmem, hmin, _⟩ := nearest_aux c cand none x hn
      have hx : x ∈ cand := by
        cases hmem with
        | inl hm => exact hm
        | inr he => cases he
      rw [snapCell, hn]
      show (if (c - x).natAbs ≤ tol then x else c) = c
      rw [if_neg (hfar x hx)]
  · intro t0 ht0 htol
    have hsome : ∃ x, nearestCell cand c = some x := by
      cases cand with
      | nil => cases ht0
      | cons hd rest =>
        rw [nearestCell, List.foldl_cons]
        exact Option.isSome_iff_exists.mp (nearest_fold_isSome c rest hd)
    obtain ⟨x, hn⟩ := hsome
    obtain ⟨hmem, hmin, _⟩ := nearest_aux c cand none x hn
    have hx : x ∈ cand := by
      cases hmem with
      | inl hm => exact hm
      | inr he => cases he
    have hclose : (c - x).natAbs ≤ tol := le_trans (hmin t0 ht0) htol
    have hsnap : snapCell cand tol c = x := by
      rw [snapCell, hn]
      show (if (c - x).natAbs ≤ tol then x else c) = x
      rw [if_pos hclose]
    rw [hsnap]
    exact ⟨hx, hmin⟩

/-- C4 counterexample: in workspace `aWS` the function is invoked with
`shoreline_fc = "alt_shoreline"`, whose nearest point to the structure
centroid (cell 10) within tolerance is cell 11; but the run's
`sows_centroids` layer holds cell 12 — the nearest point of the layer
named `noaa_shoreline_diss`, the hardcoded snap target of source line 75
— so the centroid was not snapped to the passed shoreline layer. -/
theorem C4_snap_counterexample :
    ∃ centx, lookupFC (runWS aWS "Counties_StatePlane" "NOAA_SOWS_Filtered_v3"
        "alt_shoreline") "sows_centroids" = some centx ∧
      centx.rows.map (fun r => r.geom.cells) = [[12]] ∧
      lookupFC aWS "alt_shoreline" = some aAlt ∧
      (featureToPoint aSows).rows.map (fun r => r.geom.cells) = [[10]] ∧
      snapCell (allCells aAlt) 500 10 = 11 ∧
      ((10 : Int) - 11).natAbs ≤ 500 ∧
      (12 : Int) ≠ 11 :=
  ⟨_, rfl, by decide, rfl, by decide, by decide, by decide, by decide⟩

/-- C4 (amended): the snap step targets the workspace layer named
`noaa_shoreline_diss` — the hardcoded snap environment — not the
`shoreline_fc` argument (they coincide in the script's own invocation).
Relative to that layer the snapping is as described: the run's
`sows_centroids` layer is the centroid layer with every cell snapped, a
cell farther than 500 units from every point of the target stays
unchanged, and a cell within 500 units of some target point moves to a
distance-minimising target point. -/
theorem C4_snap_amended (ws : Workspace) (sp sows shore : String)
    (polyFC sowsFC noaaFC : FC) (wOut : Workspace)
    (h2 : lookupFC ws sows = some sowsFC) (hsows : ¬ sows ∈ derivedNames sp)
    (h4 : lookupFC ws snapTargetName = some noaaFC)
    (hbody : sowsBody ws sp sows shore polyFC sowsFC = Except.ok wOut) :
    lookupFC wOut "sows_centroids" =
      some (snapFeatures (featureToPoint sowsFC) noaaFC 500) ∧
    (snapFeatures (featureToPoint sowsFC) noaaFC 500).rows =
      (featureToPoint sowsFC).rows.map (fun r =>
        Feature.mk (Geom.mk (r.geom.cells.map (snapCell (allCells noaaFC) 500)))
          r.attrs) ∧
    (∀ c, (∀ t ∈ allCells noaaFC, ¬ (c - t).natAbs ≤ 500) →
      snapCell (allCells noaaFC) 500 c = c) ∧
    (∀ c t0, t0 ∈ allCells noaaFC → (c - t0).natAbs ≤ 500 →
      snapCell (allCells noaaFC) 500 c ∈ allCells noaaFC ∧
      ∀ t ∈ allCells noaaFC,
        (c - snapCell (allCells noaaFC) 500 c).natAbs ≤ (c - t).natAbs) := by
  have hq : sows ≠ sp ++ "_sum1" ∧ sows ≠ sp ++ "_sum2" ∧ sows ≠ "sows_centroids" ∧
      sows ≠ "shoreline_split" ∧ sows ≠ "shoreline_lyr" ∧
      sows ≠ "shorelines_split_select" ∧ sows ≠ sp ++ "_SOWS_Stats" := by
    simpa [derivedNames] using hsows
  obtain ⟨q1, q2, q3, q4, q5, q6, q7⟩ := hq
  obtain ⟨shoreFC, fc2b, sowsCur, noaaFC2, shoreFC2, polyCur, fc3f, hshoreL, hany1, hcalc,
    hsowsL, hnoaaL, hshore2L, hany2, hspL, htidy, hequ⟩ := sowsBody_ok_elim hbody
  rw [lookupFC_set_ne (Ne.symm q2), lookupFC_set_ne (Ne.symm q1), h2] at hsowsL
  have hsc := Option.some.inj hsowsL
  subst hsc
  rw [h4] at hnoaaL
  have hnc := Option.some.inj hnoaaL
  subst hnc
  refine ⟨?_, rfl, fun c hfar => (snapCell_spec (allCells noaaFC) 500 c).1 hfar,
    fun c t0 ht0 htol => (snapCell_spec (allCells noaaFC) 500 c).2 t0 ht0 htol⟩
  rw [hequ "sows_centroids", wsFinalOf,
    lookupFC_set_ne (stats_ne_rest sp).2.1,
    lookupFC_set_ne (by decide : "shorelines_split_select" ≠ "sows_centroids"),
    lookupFC_set_ne (by decide : "shoreline_lyr" ≠ "sows_centroids"),
    lookupFC_set_ne (by decide : "shoreline_split" ≠ "sows_centroids"),
    lookupFC_setFC_same]
  rfl

/-- Witness for the amended C4 on the demo workspace. -/
theorem C4_snap_amended_witness :
    lookupFC (bodyWS demoWS "Counties_StatePlane" "NOAA_SOWS_Filtered_v3"
        "noaa_shoreline_diss" demoPoly demoSows) "sows_centroids" =
      some (snapFeatures (featureToPoint demoSows) demoShore 500) ∧
    (∀ c, (∀ t ∈ allCells demoShore, ¬ (c - t).natAbs ≤ 500) →
      snapCell (allCells demoShore) 500 c = c) := by
  have hb : sowsBody demoWS "Counties_StatePlane" "NOAA_SOWS_Filtered_v3"
      "noaa_shoreline_diss" demoPoly demoSows = Except.ok (bodyWS demoWS
        "Counties_StatePlane" "NOAA_SOWS_Filtered_v3" "noaa_shoreline_diss"
        demoPoly demoSows) := rfl
  obtain ⟨hc, _, hu, _⟩ := C4_snap_amended demoWS "Counties_StatePlane"
    "NOAA_SOWS_Filtered_v3" "noaa_shoreline_diss" demoPoly demoSows demoShore _
    rfl (by decide) rfl hb
  exact ⟨hc, hu⟩

/-- The engine-generated fields of the raw `<poly>_SOWS_Stats` layer, in
creation order, before tidying. -/
def fc3FieldLits : List FieldDef := [
  FieldDef.mk "mean_Area_M" "mean_Area_M", FieldDef.mk "sum_Area_M" "sum_Area_M",
  FieldDef.mk "min_Area_M" "min_Area_M", FieldDef.mk "max_Area_M" "max_Area_M",
  FieldDef.mk "std_Area_M" "std_Area_M",
  FieldDef.mk "Polygon_Count" "Polygon_Count",
  FieldDef.mk "sum_Area_SQUAREKILOMETERS" "sum_Area_SQUAREKILOMETERS",
  FieldDef.mk "Polyline_Count" "Polyline_Count",
  FieldDef.mk "sum_Length_KILOMETERS" "sum_Length_KILOMETERS",
  FieldDef.mk "density_sows_km" "density_sows_km",
  FieldDef.mk "mean_sows_dist_km" "mean_sows_dist_km",
  FieldDef.mk "sum_sows_dist_km" "sum_sows_dist_km",
  FieldDef.mk "min_sows_dist_km" "min_sows_dist_km",
  FieldDef.mk "max_sows_dist_km" "max_sows_dist_km",
  FieldDef.mk "std_sows_dist_km" "std_sows_dist_km",
  FieldDef.mk "Polyline_Count_1" "Polyline_Count_1",
  FieldDef.mk "sum_Length_KILOMETERS_1" "sum_Length_KILOMETERS_1"]

/-- The documented semantic schema of the tidied output layer: names and
display aliases, in order. -/
def tidiedFieldDefs : List FieldDef := [
  FieldDef.mk "mean_sows_Area_M" "Mean SOWS Area (m)",
  FieldDef.mk "sum_sows_Area_M" "Sum SOWS Area (m)",
  FieldDef.mk "min_sows_Area_M" "Min SOWS Area (m)",
  FieldDef.mk "max_sows_Area_M" "Max SOWS Area (m)",
  FieldDef.mk "std_sows_Area_M" "Standard Deviation SOWS Area (m)",
  FieldDef.mk "sows_count" "Count of SOWS",
  FieldDef.mk "total_shoreline_km" "Total Shoreline (km)",
  FieldDef.mk "density_sows_km" "SOWS Density (count/km)",
  FieldDef.mk "mean_sows_dist_km" "Mean SOWS Spacing (km)",
  FieldDef.mk "sum_sows_dist_km" "Sum SOWS Spacing (km)",
  FieldDef.mk "min_sows_dist_km" "Min SOWS Spacing (km)",
  FieldDef.mk "max_sows_dist_km" "Max SOWS Spacing (km)",
  FieldDef.mk "std_sows_dist_km" "Standard Deviation SOWS Spacing (km)"]

theorem contains_append_false {A B : List String} {x : String}
    (hA : A.contains x = false) (hB : B.contains x = false) :
    (A ++ B).contains x = false := by
  have h1 : x ∉ A := by simpa using hA
  have h2 : x ∉ B := by simpa using hB
  simp [h1, h2]

theorem fc1_fields (polyFC sowsFC : FC) (hcp : cleanFC polyFC = true)
    (hss : sowsFC.shape = ShapeType.polygon) :
    (fc1Of polyFC sowsFC).fields = polyFC.fields ++
      [FieldDef.mk "mean_Area_M" "mean_Area_M", FieldDef.mk "sum_Area_M" "sum_Area_M",
       FieldDef.mk "min_Area_M" "min_Area_M", FieldDef.mk "max_Area_M" "max_Area_M",
       FieldDef.mk "std_Area_M" "std_Area_M",
       FieldDef.mk "Polygon_Count" "Polygon_Count",
       FieldDef.mk "sum_Area_SQUAREKILOMETERS" "sum_Area_SQUAREKILOMETERS"] := by
  have hcnt : freshFieldName (polyFC.fields.map (fun fd => fd.name))
      (countFieldBase ShapeType.polygon) = "Polygon_Count" :=
    freshFieldName_eq_self (contains_map_name_false (cleanFC_fields hcp) (by decide))
  have hsha : freshFieldName (polyFC.fields.map (fun fd => fd.name) ++ ["Polygon_Count"])
      ("sum_Area_" ++ "SQUAREKILOMETERS") = "sum_Area_SQUAREKILOMETERS" :=
    freshFieldName_eq_self (contains_append_false
      (contains_map_name_false (cleanFC_fields hcp) (by decide)) (by decide))
  show (summarizeWithin polyFC sowsFC true areaSumFields "SQUAREKILOMETERS").fields = _
  simp only [summarizeWithin, hss]
  simp [areaSumFields, hcnt, hsha, List.append_assoc]
  exact ⟨rfl, rfl, rfl, rfl, rfl, hsha⟩

theorem fc2a_fields (polyFC sowsFC shoreFC : FC) (hcp : cleanFC polyFC = true)
    (hss : sowsFC.shape = ShapeType.polygon) (hsh : shoreFC.shape = ShapeType.polyline) :
    (fc2aOf polyFC sowsFC shoreFC).fields = polyFC.fields ++
      [FieldDef.mk "mean_Area_M" "mean_Area_M", FieldDef.mk "sum_Area_M" "sum_Area_M",
       FieldDef.mk "min_Area_M" "min_Area_M", FieldDef.mk "max_Area_M" "max_Area_M",
       FieldDef.mk "std_Area_M" "std_Area_M",
       FieldDef.mk "Polygon_Count" "Polygon_Count",
       FieldDef.mk "sum_Area_SQUAREKILOMETERS" "sum_Area_SQUAREKILOMETERS",
       FieldDef.mk "Polyline_Count" "Polyline_Count",
       FieldDef.mk "sum_Length_KILOMETERS" "sum_Length_KILOMETERS",
       FieldDef.mk "density_sows_km" "density_sows_km"] := by
  have h1 := fc1_fields polyFC sowsFC hcp hss
  have htaken : (fc1Of polyFC sowsFC).fields.map (fun fd => fd.name) =
      polyFC.fields.map (fun fd => fd.name) ++
      ["mean_Area_M", "sum_Area_M", "min_Area_M", "max_Area_M", "std_Area_M",
       "Polygon_Count", "sum_Area_SQUAREKILOMETERS"] := by
    rw [h1, List.map_append]
    rfl
  have hcnt : freshFieldName ((fc1Of polyFC sowsFC).fields.map (fun fd => fd.name))
      (countFieldBase ShapeType.polyline) = "Polyline_Count" := by
    rw [htaken]
    exact freshFieldName_eq_self (contains_append_false
      (contains_map_name_false (cleanFC_fields hcp) (by decide)) (by decide))
  have hsha : freshFieldName ((fc1Of polyFC sowsFC).fields.map (fun fd => fd.name) ++
      ["Polyline_Count"]) ("sum_Length_" ++ "KILOMETERS") = "sum_Length_KILOMETERS" := by
    rw [htaken, List.append_assoc]
    exact freshFieldName_eq_self (contains_append_false
      (contains_map_name_false (cleanFC_fields hcp) (by decide)) (by decide))
  show (addFieldOk (summarizeWithin (fc1Of polyFC sowsFC) shoreFC true [] "KILOMETERS")
    "density_sows_km").fields = _
  rw [addFieldOk]
  show (summarizeWithin (fc1Of polyFC sowsFC) shoreFC true [] "KILOMETERS").fields ++
    [FieldDef.mk "density_sows_km" "density_sows_km"] = _
  simp only [summarizeWithin, hsh]
  simp only [List.map_nil, List.nil_append]
  rw [hcnt, hsha, h1]
  simp [List.append_assoc]

theorem fc3_fields (polyFC sowsFC shoreFC fc2b selected : FC)
    (hcp : cleanFC polyFC = true) (hss : sowsFC.shape = ShapeType.polygon)
    (hsh : shoreFC.shape = ShapeType.polyline)
    (hfb : fc2b.fields = (fc2aOf polyFC sowsFC shoreFC).fields)
    (hselsh : selected.shape = ShapeType.polyline) :
    (fc3Of fc2b selected).fields = polyFC.fields ++ fc3FieldLits := by
  have h2a := fc2a_fields polyFC sowsFC shoreFC hcp hss hsh
  have htaken : fc2b.fields.map (fun fd => fd.name) =
      polyFC.fields.map (fun fd => fd.name) ++
      ["mean_Area_M", "sum_Area_M", "min_Area_M", "max_Area_M", "std_Area_M",
       "Polygon_Count", "sum_Area_SQUAREKILOMETERS", "Polyline_Count",
       "sum_Length_KILOMETERS", "density_sows_km"] := by
    rw [hfb, h2a, List.map_append]
    rfl
  have hcnt2 : freshFieldName (polyFC.fields.map (fun fd => fd.name) ++
      ["mean_Area_M", "sum_Area_M", "min_Area_M", "max_Area_M", "std_Area_M",
       "Polygon_Count", "sum_Area_SQUAREKILOMETERS", "Polyline_Count",
       "sum_Length_KILOMETERS", "density_sows_km"])
      (countFieldBase ShapeType.polyline) = "Polyline_Count_1" := by
    simp only [countFieldBase]
    apply freshFieldName_eq_one
    · have hm : ("Polyline_Count" : String) ∈ polyFC.fields.map (fun fd => fd.name) ++
          ["mean_Area_M", "sum_Area_M", "min_Area_M", "max_Area_M", "std_Area_M",
           "Polygon_Count", "sum_Area_SQUAREKILOMETERS", "Polyline_Count",
           "sum_Length_KILOMETERS", "density_sows_km"] :=
        List.mem_append.mpr (Or.inr (by decide))
      simpa using hm
    · exact contains_append_false
        (contains_map_name_false (cleanFC_fields hcp) (by decide)) (by decide)
  have hsha2 : freshFieldName (polyFC.fields.map (fun fd => fd.name) ++
      ["mean_Area_M", "sum_Area_M", "min_Area_M", "max_Area_M", "std_Area_M",
       "Polygon_Count", "sum_Area_SQUAREKILOMETERS", "Polyline_Count",
       "sum_Length_KILOMETERS", "density_sows_km", "Polyline_Count_1"])
      "sum_Length_KILOMETERS" = "sum_Length_KILOMETERS_1" := by
    apply freshFieldName_eq_one
    · have hm : ("sum_Length_KILOMETERS" : String) ∈
          polyFC.fields.map (fun fd => fd.name) ++
          ["mean_Area_M", "sum_Area_M", "min_Area_M", "max_Area_M", "std_Area_M",
           "Polygon_Count", "sum_Area_SQUAREKILOMETERS", "Polyline_Count",
           "sum_Length_KILOMETERS", "density_sows_km", "Polyline_Count_1"] :=
        List.mem_append.mpr (Or.inr (by decide))
      simpa using hm
    · exact contains_append_false
        (contains_map_name_false (cleanFC_fields hcp) (by decide)) (by decide)
  show (summarizeWithin fc2b selected true distSumFields "KILOMETERS").fields = _
  simp only [summarizeWithin, hselsh]
  simp [distSumFields, statPre, htaken, hcnt2, hsha2, hfb, h2a, fc3FieldLits,
    List.append_assoc]

/-- C5: after the tidying step of a successful run, the final layer's
schema is exactly the input region schema followed by the documented
semantic fields with their documented aliases, and none of the raw
engine-generated duplicate fields remain. -/
theorem C5_schema (ws : Workspace) (sp sows shore : String)
    (polyFC sowsFC shoreFC0 : FC) (wOut : Workspace)
    (h3 : lookupFC ws shore = some shoreFC0) (hshore : ¬ shore ∈ derivedNames sp)
    (hcp : cleanFC polyFC = true) (hss : sowsFC.shape = ShapeType.polygon)
    (hsh : shoreFC0.shape = ShapeType.polyline)
    (hbody : sowsBody ws sp sows shore polyFC sowsFC = Except.ok wOut) :
    ∃ fcF, lookupFC wOut (sp ++ "_SOWS_Stats") = some fcF ∧
      fcF.fields = polyFC.fields ++ tidiedFieldDefs ∧
      ∀ fd ∈ fcF.fields, fd.name ≠ "Polyline_Count_1" ∧
        fd.name ≠ "sum_Length_KILOMETERS_1" ∧ fd.name ≠ "sum_Area_SQUAREKILOMETERS" ∧
        fd.name ≠ "Polyline_Count" := by
  have hq : shore ≠ sp ++ "_sum1" ∧ shore ≠ sp ++ "_sum2" ∧ shore ≠ "sows_centroids" ∧
      shore ≠ "shoreline_split" ∧ shore ≠ "shoreline_lyr" ∧
      shore ≠ "shorelines_split_select" ∧ shore ≠ sp ++ "_SOWS_Stats" := by
    simpa [derivedNames] using hshore
  obtain ⟨q1, q2, q3, q4, q5, q6, q7⟩ := hq
  obtain ⟨shoreFC, fc2b, sowsCur, noaaFC, shoreFC2, polyCur, fc3f, hshoreL, hany1, hcalc,
    hsowsL, hnoaaL, hshore2L, hany2, hspL, htidy, hequ⟩ := sowsBody_ok_elim hbody
  rw [lookupFC_set_ne (Ne.symm q1), h3] at hshoreL
  have hsc := Option.some.inj hshoreL
  subst hsc
  have hfb : fc2b.fields = (fc2aOf polyFC sowsFC shoreFC0).fields :=
    (calcDensityField_ok hcalc).2.1
  have hself : (selectedOf shoreFC2 sowsCur noaaFC polyCur).shape =
      ShapeType.polyline := rfl
  have h3f := fc3_fields polyFC sowsFC shoreFC0 fc2b
    (selectedOf shoreFC2 sowsCur noaaFC polyCur) hcp hss hsh hfb hself
  have hfinal : fc3f.fields = polyFC.fields ++ tidiedFieldDefs := by
    rw [runTidy_ok_fields htidy, h3f,
      tidyFold_append (cleanFC_fields hcp) tidyOps fc3FieldLits (by decide),
      (by decide : tidyOps.foldl tidyFieldsStep fc3FieldLits = tidiedFieldDefs)]
  refine ⟨fc3f, ?_, hfinal, ?_⟩
  · rw [hequ (sp ++ "_SOWS_Stats"), wsFinalOf, lookupFC_setFC_same]
  · intro fd hfd
    rw [hfinal] at hfd
    rcases List.mem_append.mp hfd with hfd | hfd
    · have hc := cleanFC_fields hcp fd hfd
      refine ⟨?_, ?_, ?_, ?_⟩ <;>
        · intro he
          rw [he] at hc
          exact absurd hc (by decide)
    · have hall : ∀ fd2 ∈ tidiedFieldDefs, fd2.name ≠ "Polyline_Count_1" ∧
          fd2.name ≠ "sum_Length_KILOMETERS_1" ∧ fd2.name ≠ "sum_Area_SQUAREKILOMETERS" ∧
          fd2.name ≠ "Polyline_Count" := by decide
      exact hall fd hfd

/-- Witness for C5 on the demo workspace. -/
theorem C5_schema_witness :
    ∃ fcF, lookupFC (bodyWS demoWS "Counties_StatePlane" "NOAA_SOWS_Filtered_v3"
        "noaa_shoreline_diss" demoPoly demoSows)
        ("Counties_StatePlane" ++ "_SOWS_Stats") = some fcF ∧
      fcF.fields = demoPoly.fields ++ tidiedFieldDefs := by
  have hb : sowsBody demoWS "Counties_StatePlane" "NOAA_SOWS_Filtered_v3"
      "noaa_shoreline_diss" demoPoly demoSows = Except.ok (bodyWS demoWS
        "Counties_StatePlane" "NOAA_SOWS_Filtered_v3" "noaa_shoreline_diss"
        demoPoly demoSows) := rfl
  obtain ⟨fcF, h1, h2, _⟩ := C5_schema demoWS "Counties_StatePlane"
    "NOAA_SOWS_Filtered_v3" "noaa_shoreline_diss" demoPoly demoSows demoShore _
    rfl (by decide) (by decide) rfl rfl hb
  exact ⟨fcF, h1, h2⟩

/-- The snap-environment name is not a derived dataset name, for any
summary-layer name. -/
theorem snapTarget_not_derived (sp : String) : ¬ snapTargetName ∈ derivedNames sp := by
  intro h
  simp only [derivedNames, List.mem_cons] at h
  rcases h with h | h | h | h | h | h | h
  · exact (snapTarget_not_written sp).1 h.symm
  · exact (snapTarget_not_written sp).2.1 h.symm
  · exact absurd h (by decide)
  · exact absurd h (by decide)
  · exact absurd h (by decide)
  · exact absurd h (by decide)
  · rcases h with h | h
    · exact append_ne_of_not_suffix sp (by decide) h.symm
    · exact absurd h (by decide)

set_option maxHeartbeats 1600000 in
/-- Forward evaluation of a run whose stage computations are known to
succeed: with the four inputs resolving as given and the derived names
fresh, the body succeeds and leaves the stage values behind. -/
theorem sowsBody_ok_intro (ws : Workspace) (sp sows shore : String)
    (polyFC sowsFC shoreFC noaaFC fc2b fc3f : FC)
    (hsp : ¬ sp ∈ derivedNames sp) (hsows : ¬ sows ∈ derivedNames sp)
    (hshore : ¬ shore ∈ derivedNames sp)
    (h1 : lookupFC ws sp = some polyFC) (h2 : lookupFC ws sows = some sowsFC)
    (h3 : lookupFC ws shore = some shoreFC)
    (h4 : lookupFC ws snapTargetName = some noaaFC)
    (hany1 : (fc2rawOf polyFC sowsFC shoreFC).fields.any
      (fun fd => fd.name = "density_sows_km") = false)
    (hcalc : calcDensityField (fc2aOf polyFC sowsFC shoreFC) "density_sows_km"
      "Polygon_Count" "sum_Length_KILOMETERS" = Except.ok fc2b)
    (hany2 : (splitRawOf shoreFC sowsFC noaaFC).fields.any
      (fun fd => fd.name = "sows_dist_km") = false)
    (htidy : runTidy (fc3Of fc2b (selectedOf shoreFC sowsFC noaaFC polyFC)) tidyOps =
      Except.ok fc3f) :
    ∃ wOk, sowsBody ws sp sows shore polyFC sowsFC = Except.ok wOk ∧
      wsEquiv wOk (wsFinalOf ws sp (fc1Of polyFC sowsFC) fc2b
        (centSnapOf sowsFC noaaFC) (splitCalcOf shoreFC sowsFC noaaFC)
        (selectedOf shoreFC sowsFC noaaFC polyFC) fc3f) := by
  have hp : sp ≠ sp ++ "_sum1" ∧ sp ≠ sp ++ "_sum2" ∧ sp ≠ "sows_centroids" ∧
      sp ≠ "shoreline_split" ∧ sp ≠ "shoreline_lyr" ∧ sp ≠ "shorelines_split_select" ∧
      sp ≠ sp ++ "_SOWS_Stats" := by
    simpa [derivedNames] using hsp
  obtain ⟨p1, p2, p3, p4, p5, p6, p7⟩ := hp
  have hs : sows ≠ sp ++ "_sum1" ∧ sows ≠ sp ++ "_sum2" ∧ sows ≠ "sows_centroids" ∧
      sows ≠ "shoreline_split" ∧ sows ≠ "shoreline_lyr" ∧
      sows ≠ "shorelines_split_select" ∧ sows ≠ sp ++ "_SOWS_Stats" := by
    simpa [derivedNames] using hsows
  obtain ⟨s1, s2, s3, s4, s5, s6, s7⟩ := hs
  have hr : shore ≠ sp ++ "_sum1" ∧ shore ≠ sp ++ "_sum2" ∧ shore ≠ "sows_centroids" ∧
      shore ≠ "shoreline_split" ∧ shore ≠ "shoreline_lyr" ∧
      shore ≠ "shorelines_split_select" ∧ shore ≠ sp ++ "_SOWS_Stats" := by
    simpa [derivedNames] using hshore
  obtain ⟨r1, r2, r3, r4, r5, r6, r7⟩ := hr
  simp only [fc2rawOf, fc2aOf, fc1Of] at hany1 hcalc
  simp only [splitRawOf, splitCalcOf, selectedOf, fc3Of, centSnapOf]
    at hany2 htidy
  simp only [sowsBody, addField,
    lookupFC_set_ne (Ne.symm r1), lookupFC_set_ne (Ne.symm r2),
    lookupFC_set_ne (Ne.symm r3),
    lookupFC_set_ne (Ne.symm s1), lookupFC_set_ne (Ne.symm s2),
    lookupFC_set_ne (snapTarget_not_written sp).1,
    lookupFC_set_ne (snapTarget_not_written sp).2.1,
    lookupFC_set_ne (snapTarget_not_written sp).2.2,
    lookupFC_set_ne (Ne.symm p1), lookupFC_set_ne (Ne.symm p2),
    lookupFC_set_ne (Ne.symm p3), lookupFC_set_ne (Ne.symm p4),
    lookupFC_set_ne (Ne.symm p5),
    lookupFC_set_ne (Ne.symm (sum2_ne_fixed sp).1),
    lookupFC_set_ne (Ne.symm (sum2_ne_fixed sp).2.1),
    lookupFC_set_ne (Ne.symm (sum2_ne_fixed sp).2.2.1),
    lookupFC_set_ne (Ne.symm (sum2_ne_fixed sp).2.2.2),
    lookupFC_setFC_same,
    h1, h2, h3, h4, hany1, hcalc, hany2, htidy,
    Bool.false_eq_true, if_false]
  refine ⟨_, rfl, ?_⟩
  exact wsEquiv_trans (wsEquiv_collapse _ _ _ _)
    (wsEquiv_set (wsEquiv_set (wsEquiv_set (wsEquiv_trans (wsEquiv_collapse3 _ _ _ _ _)
      (wsEquiv_set (wsEquiv_trans (wsEquiv_collapse _ _ _ _)
        (wsEquiv_set (wsEquiv_collapse3 _ _ _ _ _) _ _)) _ _)) _ _) _ _) _ _)

/-- Pointwise workspace equivalence is symmetric. -/
theorem wsEquiv_symm {A B : Workspace} (h : wsEquiv A B) : wsEquiv B A :=
  fun x => (h x).symm

/-- Frame property of the final workspace: a name outside the derived set
resolves past all seven writes to the base workspace. -/
theorem wsFinalOf_frame (w : Workspace) (sp x : String)
    (fc1 fc2b centS splB selected fc3f : FC) (hx : ¬ x ∈ derivedNames sp) :
    lookupFC (wsFinalOf w sp fc1 fc2b centS splB selected fc3f) x = lookupFC w x := by
  have hne : x ≠ sp ++ "_sum1" ∧ x ≠ sp ++ "_sum2" ∧ x ≠ "sows_centroids" ∧
      x ≠ "shoreline_split" ∧ x ≠ "shoreline_lyr" ∧ x ≠ "shorelines_split_select" ∧
      x ≠ sp ++ "_SOWS_Stats" := by
    simpa [derivedNames] using hx
  obtain ⟨q1, q2, q3, q4, q5, q6, q7⟩ := hne
  simp only [wsFinalOf, lookupFC_set_ne (Ne.symm q1), lookupFC_set_ne (Ne.symm q2),
    lookupFC_set_ne (Ne.symm q3), lookupFC_set_ne (Ne.symm q4),
    lookupFC_set_ne (Ne.symm q5), lookupFC_set_ne (Ne.symm q6),
    lookupFC_set_ne (Ne.symm q7)]

/-- Two final workspaces carrying the same stage values over base
workspaces that agree outside the derived names agree everywhere. -/
theorem wsFinalOf_congr {w w' : Workspace} (sp : String)
    (fc1 fc2b centS splB selected fc3f : FC)
    (h : ∀ x, ¬ x ∈ derivedNames sp → lookupFC w x = lookupFC w' x) :
    wsEquiv (wsFinalOf w sp fc1 fc2b centS splB selected fc3f)
      (wsFinalOf w' sp fc1 fc2b centS splB selected fc3f) := by
  intro x
  by_cases hx : x ∈ derivedNames sp
  · simp only [derivedNames, List.mem_cons, List.not_mem_nil, or_false] at hx
    rcases hx with hx | hx | hx | hx | hx | hx | hx <;> subst hx
    · simp only [wsFinalOf,
        lookupFC_set_ne (Ne.symm ((sum1_ne_rest sp).2.1)),
        lookupFC_set_ne (Ne.symm ((sum1_ne_rest sp).2.2.2.2.2)),
        lookupFC_set_ne (Ne.symm ((sum1_ne_rest sp).2.2.2.2.1)),
        lookupFC_set_ne (Ne.symm ((sum1_ne_rest sp).2.2.2.1)),
        lookupFC_set_ne (Ne.symm ((sum1_ne_rest sp).2.2.1)),
        lookupFC_set_ne (Ne.symm ((sum1_ne_rest sp).1)),
        lookupFC_setFC_same]
    · simp only [wsFinalOf,
        lookupFC_set_ne ((stats_ne_rest sp).1),
        lookupFC_set_ne (Ne.symm ((sum2_ne_fixed sp).2.2.2)),
        lookupFC_set_ne (Ne.symm ((sum2_ne_fixed sp).2.2.1)),
        lookupFC_set_ne (Ne.symm ((sum2_ne_fixed sp).2.1)),
        lookupFC_set_ne (Ne.symm ((sum2_ne_fixed sp).1)),
        lookupFC_setFC_same]
    · simp only [wsFinalOf,
        lookupFC_set_ne ((stats_ne_rest sp).2.1),
        lookupFC_set_ne (show "shorelines_split_select" ≠ "sows_centroids" by decide),
        lookupFC_set_ne (show "shoreline_lyr" ≠ "sows_centroids" by decide),
        lookupFC_set_ne (show "shoreline_split" ≠ "sows_centroids" by decide),
        lookupFC_setFC_same]
    · simp only [wsFinalOf,
        lookupFC_set_ne ((stats_ne_rest sp).2.2.1),
        lookupFC_set_ne (show "shorelines_split_select" ≠ "shoreline_split" by decide),
        lookupFC_set_ne (show "shoreline_lyr" ≠ "shoreline_split" by decide),
        lookupFC_setFC_same]
    · simp only [wsFinalOf,
        lookupFC_set_ne ((stats_ne_rest sp).2.2.2.1),
        lookupFC_set_ne (show "shorelines_split_select" ≠ "shoreline_lyr" by decide),
        lookupFC_setFC_same]
    · simp only [wsFinalOf,
        lookupFC_set_ne ((stats_ne_rest sp).2.2.2.2),
        lookupFC_setFC_same]
    · simp only [wsFinalOf, lookupFC_setFC_same]
  · rw [wsFinalOf_frame w sp x fc1 fc2b centS splB selected fc3f hx,
      wsFinalOf_frame w' sp x fc1 fc2b centS splB selected fc3f hx]
    exact h x hx

/-- C8: rerunning the pipeline on the unchanged inputs with overwrite
enabled is idempotent — the pipeline is deterministic, so the second run
also succeeds, prints the same log, and leaves a workspace resolving
every dataset name to exactly the layers of the first run's workspace;
in particular the final `<poly>_SOWS_Stats` layer carries identical
attribute values after each run.  (A successful first run is one whose
log has the two success entries; an error log has three.) -/
theorem C8_idempotent (ws : Workspace) (sp sows shore : String) (polyFC sowsFC : FC)
    (h1 : lookupFC ws sp = some polyFC) (h2 : lookupFC ws sows = some sowsFC)
    (hsp : ¬ sp ∈ derivedNames sp) (hsows : ¬ sows ∈ derivedNames sp)
    (hshore : ¬ shore ∈ derivedNames sp)
    (w1 : Workspace) (log1 : List String)
    (hrun1 : get_sows_stats ws sp sows shore = Except.ok (w1, log1))
    (hok : log1.length = 2) :
    ∃ w2, get_sows_stats w1 sp sows shore = Except.ok (w2, log1) ∧
      wsEquiv w2 w1 := by
  have hr : shore ≠ sp ++ "_sum1" ∧ shore ≠ sp ++ "_sum2" ∧ shore ≠ "sows_centroids" ∧
      shore ≠ "shoreline_split" ∧ shore ≠ "shoreline_lyr" ∧
      shore ≠ "shorelines_split_select" ∧ shore ≠ sp ++ "_SOWS_Stats" := by
    simpa [derivedNames] using hshore
  obtain ⟨r1, r2, r3, r4, r5, r6, r7⟩ := hr
  have hs : sows ≠ sp ++ "_sum1" ∧ sows ≠ sp ++ "_sum2" ∧ sows ≠ "sows_centroids" ∧
      sows ≠ "shoreline_split" ∧ sows ≠ "shoreline_lyr" ∧
      sows ≠ "shorelines_split_select" ∧ sows ≠ sp ++ "_SOWS_Stats" := by
    simpa [derivedNames] using hsows
  obtain ⟨s1, s2, s3, s4, s5, s6, s7⟩ := hs
  have hp : sp ≠ sp ++ "_sum1" ∧ sp ≠ sp ++ "_sum2" ∧ sp ≠ "sows_centroids" ∧
      sp ≠ "shoreline_split" ∧ sp ≠ "shoreline_lyr" ∧ sp ≠ "shorelines_split_select" ∧
      sp ≠ sp ++ "_SOWS_Stats" := by
    simpa [derivedNames] using hsp
  obtain ⟨p1, p2, p3, p4, p5, p6, p7⟩ := hp
  simp only [get_sows_stats, h1, h2] at hrun1
  cases hb : sowsBody ws sp sows shore polyFC sowsFC with
  | error we =>
    rw [hb] at hrun1
    cases hrun1
    simp at hok
  | ok wOk =>
    rw [hb] at hrun1
    simp only [Except.ok.injEq, Prod.mk.injEq] at hrun1
    obtain ⟨hw, hl⟩ := hrun1
    obtain ⟨shoreFC, fc2b, sowsCur, noaaFC, shoreFC2, polyCur, fc3f,
      hshoreL, hany1, hcalc, hsowsL, hnoaa, hshore2L, hany2, hspL, htidy, hequiv⟩ :=
      sowsBody_ok_elim hb
    rw [lookupFC_set_ne (Ne.symm r1)] at hshoreL
    rw [lookupFC_set_ne (Ne.symm s2), lookupFC_set_ne (Ne.symm s1)] at hsowsL
    have hsc : sowsFC = sowsCur := (Option.some.inj (hsowsL.symm.trans h2)).symm
    subst hsc
    rw [lookupFC_set_ne (Ne.symm r3), lookupFC_set_ne (Ne.symm r2),
      lookupFC_set_ne (Ne.symm r1)] at hshore2L
    have hshc : shoreFC = shoreFC2 := (Option.some.inj (hshore2L.symm.trans hshoreL)).symm
    subst hshc
    rw [lookupFC_set_ne (Ne.symm p5), lookupFC_set_ne (Ne.symm p4),
      lookupFC_set_ne (Ne.symm p3), lookupFC_set_ne (Ne.symm p2),
      lookupFC_set_ne (Ne.symm p1)] at hspL
    have hpc : polyFC = polyCur := (Option.some.inj (hspL.symm.trans h1)).symm
    subst hpc
    have hframe : ∀ x, ¬ x ∈ derivedNames sp → lookupFC wOk x = lookupFC ws x := by
      intro x hx
      rw [hequiv x, wsFinalOf_frame ws sp x (fc1Of polyFC sowsFC) fc2b
        (centSnapOf sowsFC noaaFC) (splitCalcOf shoreFC sowsFC noaaFC)
        (selectedOf shoreFC sowsFC noaaFC polyFC) fc3f hx]
    have hw1sp : lookupFC wOk sp = some polyFC := (hframe sp hsp).trans h1
    have hw1sows : lookupFC wOk sows = some sowsFC := (hframe sows hsows).trans h2
    have hw1shore : lookupFC wOk shore = some shoreFC := (hframe shore hshore).trans hshoreL
    have hw1noaa : lookupFC wOk snapTargetName = some noaaFC :=
      (hframe snapTargetName (snapTarget_not_derived sp)).trans hnoaa
    obtain ⟨w2, hbody2, hequiv2⟩ := sowsBody_ok_intro wOk sp sows shore polyFC sowsFC
      shoreFC noaaFC fc2b fc3f hsp hsows hshore hw1sp hw1sows hw1shore hw1noaa
      hany1 hcalc hany2 htidy
    refine ⟨w2, ?_, ?_⟩
    · rw [← hw, ← hl]
      simp only [get_sows_stats, hw1sp, hw1sows, hbody2]
    · rw [← hw]
      exact wsEquiv_trans hequiv2 (wsEquiv_trans
        (wsFinalOf_congr sp (fc1Of polyFC sowsFC) fc2b (centSnapOf sowsFC noaaFC)
          (splitCalcOf shoreFC sowsFC noaaFC) (selectedOf shoreFC sowsFC noaaFC polyFC)
          fc3f hframe)
        (wsEquiv_symm hequiv))

/-- Witness for C8: rerunning on the demo workspace reproduces the same
log and a workspace equivalent to the first run's. -/
theorem C8_idempotent_witness :
    ∃ w2, get_sows_stats (runWS demoWS "Counties_StatePlane" "NOAA_SOWS_Filtered_v3"
        "noaa_shoreline_diss") "Counties_StatePlane" "NOAA_SOWS_Filtered_v3"
        "noaa_shoreline_diss" =
      Except.ok (w2, runLog demoWS "Counties_StatePlane" "NOAA_SOWS_Filtered_v3"
        "noaa_shoreline_diss") ∧
      wsEquiv w2 (runWS demoWS "Counties_StatePlane" "NOAA_SOWS_Filtered_v3"
        "noaa_shoreline_diss") :=
  C8_idempotent demoWS "Counties_StatePlane" "NOAA_SOWS_Filtered_v3"
    "noaa_shoreline_diss" demoPoly demoSows rfl rfl (by decide) (by decide) (by decide)
    (runWS demoWS "Counties_StatePlane" "NOAA_SOWS_Filtered_v3" "noaa_shoreline_diss")
    (runLog demoWS "Counties_StatePlane" "NOAA_SOWS_Filtered_v3" "noaa_shoreline_diss")
    rfl (by decide)

/-- A dataset namespaced by one polygon-layer name is never a derived
name of a run over a different polygon-layer name: the three suffixes
`_sum1`, `_sum2`, `_SOWS_Stats` collide across prefixes only when the
prefixes coincide, and none of them ends a fixed intermediate name. -/
theorem namespaced_not_cross_derived {sp1 sp2 : String} (h : sp1 ≠ sp2) :
    ¬ sp1 ++ "_sum1" ∈ derivedNames sp2 ∧ ¬ sp1 ++ "_sum2" ∈ derivedNames sp2 ∧
    ¬ sp1 ++ "_SOWS_Stats" ∈ derivedNames sp2 := by
  refine ⟨?_, ?_, ?_⟩ <;> intro hm <;>
    simp only [derivedNames, List.mem_cons, List.not_mem_nil, or_false] at hm
  · rcases hm with hm | hm | hm | hm | hm | hm | hm
    · exact h (append_right_inj hm)
    · exact append_ne_append sp1 sp2 (by decide) (by decide) hm
    · exact append_ne_of_not_suffix sp1 (by decide) hm
    · exact append_ne_of_not_suffix sp1 (by decide) hm
    · exact append_ne_of_not_suffix sp1 (by decide) hm
    · exact append_ne_of_not_suffix sp1 (by decide) hm
    · exact append_ne_append sp2 sp1 (by decide) (by decide) hm.symm
  · rcases hm with hm | hm | hm | hm | hm | hm | hm
    · exact append_ne_append sp1 sp2 (by decide) (by decide) hm
    · exact h (append_right_inj hm)
    · exact append_ne_of_not_suffix sp1 (by decide) hm
    · exact append_ne_of_not_suffix sp1 (by decide) hm
    · exact append_ne_of_not_suffix sp1 (by decide) hm
    · exact append_ne_of_not_suffix sp1 (by decide) hm
    · exact append_ne_append sp2 sp1 (by decide) (by decide) hm.symm
  · rcases hm with hm | hm | hm | hm | hm | hm | hm
    · exact append_ne_append sp1 sp2 (by decide) (by decide) hm
    · exact append_ne_append sp1 sp2 (by decide) (by decide) hm
    · exact append_ne_of_not_suffix sp1 (by decide) hm
    · exact append_ne_of_not_suffix sp1 (by decide) hm
    · exact append_ne_of_not_suffix sp1 (by decide) hm
    · exact append_ne_of_not_suffix sp1 (by decide) hm
    · exact h (append_right_inj hm)

set_option maxHeartbeats 1600000 in
/-- C10: the centroid, split-shoreline and selected-segment intermediates
have the fixed names `sows_centroids`, `shoreline_split` and
`shorelines_split_select` whatever the summary-polygon layer, so a second
successful invocation for a different geography in the same workspace
overwrites them with its own stage values (computed from its own polygon
layer); the `_sum1`, `_sum2` and `_SOWS_Stats` layers are namespaced by
the polygon-layer name, so the first geography's copies survive the
second run, and the second run adds its own. -/
theorem C10_fixed_intermediates (ws : Workspace) (sp1 sp2 sows shore : String)
    (poly1 sowsFC : FC) (hne : sp1 ≠ sp2)
    (h1 : lookupFC ws sp1 = some poly1) (h2 : lookupFC ws sows = some sowsFC)
    (hsp1a : ¬ sp1 ∈ derivedNames sp1) (hsowsa : ¬ sows ∈ derivedNames sp1)
    (hshorea : ¬ shore ∈ derivedNames sp1)
    (hsp2b : ¬ sp2 ∈ derivedNames sp2) (hsowsb : ¬ sows ∈ derivedNames sp2)
    (hshoreb : ¬ shore ∈ derivedNames sp2)
    (w1 : Workspace) (log1 : List String) (w2 : Workspace) (log2 : List String)
    (hrun1 : get_sows_stats ws sp1 sows shore = Except.ok (w1, log1))
    (hok1 : log1.length = 2)
    (hrun2 : get_sows_stats w1 sp2 sows shore = Except.ok (w2, log2))
    (hok2 : log2.length = 2) :
    ∃ shoreFC noaaFC poly2,
      lookupFC ws shore = some shoreFC ∧
      lookupFC ws snapTargetName = some noaaFC ∧
      lookupFC w1 sp2 = some poly2 ∧
      lookupFC w1 "sows_centroids" = some (centSnapOf sowsFC noaaFC) ∧
      lookupFC w1 "shoreline_split" = some (splitCalcOf shoreFC sowsFC noaaFC) ∧
      lookupFC w1 "shorelines_split_select" =
        some (selectedOf shoreFC sowsFC noaaFC poly1) ∧
      lookupFC w2 "sows_centroids" = some (centSnapOf sowsFC noaaFC) ∧
      lookupFC w2 "shoreline_split" = some (splitCalcOf shoreFC sowsFC noaaFC) ∧
      lookupFC w2 "shorelines_split_select" =
        some (selectedOf shoreFC sowsFC noaaFC poly2) ∧
      lookupFC w2 (sp1 ++ "_sum1") = lookupFC w1 (sp1 ++ "_sum1") ∧
      lookupFC w2 (sp1 ++ "_sum2") = lookupFC w1 (sp1 ++ "_sum2") ∧
      lookupFC w2 (sp1 ++ "_SOWS_Stats") = lookupFC w1 (sp1 ++ "_SOWS_Stats") ∧
      lookupFC w2 (sp2 ++ "_sum1") = some (fc1Of poly2 sowsFC) := by
  have hra : shore ≠ sp1 ++ "_sum1" ∧ shore ≠ sp1 ++ "_sum2" ∧
      shore ≠ "sows_centroids" ∧ shore ≠ "shoreline_split" ∧ shore ≠ "shoreline_lyr" ∧
      shore ≠ "shorelines_split_select" ∧ shore ≠ sp1 ++ "_SOWS_Stats" := by
    simpa [derivedNames] using hshorea
  obtain ⟨r1a, r2a, r3a, r4a, r5a, r6a, r7a⟩ := hra
  have hsa : sows ≠ sp1 ++ "_sum1" ∧ sows ≠ sp1 ++ "_sum2" ∧ sows ≠ "sows_centroids" ∧
      sows ≠ "shoreline_split" ∧ sows ≠ "shoreline_lyr" ∧
      sows ≠ "shorelines_split_select" ∧ sows ≠ sp1 ++ "_SOWS_Stats" := by
    simpa [derivedNames] using hsowsa
  obtain ⟨s1a, s2a, s3a, s4a, s5a, s6a, s7a⟩ := hsa
  have hpa : sp1 ≠ sp1 ++ "_sum1" ∧ sp1 ≠ sp1 ++ "_sum2" ∧ sp1 ≠ "sows_centroids" ∧
      sp1 ≠ "shoreline_split" ∧ sp1 ≠ "shoreline_lyr" ∧
      sp1 ≠ "shorelines_split_select" ∧ sp1 ≠ sp1 ++ "_SOWS_Stats" := by
    simpa [derivedNames] using hsp1a
  obtain ⟨p1a, p2a, p3a, p4a, p5a, p6a, p7a⟩ := hpa
  have hrb : shore ≠ sp2 ++ "_sum1" ∧ shore ≠ sp2 ++ "_sum2" ∧
      shore ≠ "sows_centroids" ∧ shore ≠ "shoreline_split" ∧ shore ≠ "shoreline_lyr" ∧
      shore ≠ "shorelines_split_select" ∧ shore ≠ sp2 ++ "_SOWS_Stats" := by
    simpa [derivedNames] using hshoreb
  obtain ⟨r1b, r2b, r3b, r4b, r5b, r6b, r7b⟩ := hrb
  have hsb : sows ≠ sp2 ++ "_sum1" ∧ sows ≠ sp2 ++ "_sum2" ∧ sows ≠ "sows_centroids" ∧
      sows ≠ "shoreline_split" ∧ sows ≠ "shoreline_lyr" ∧
      sows ≠ "shorelines_split_select" ∧ sows ≠ sp2 ++ "_SOWS_Stats" := by
    simpa [derivedNames] using hsowsb
  obtain ⟨s1b, s2b, s3b, s4b, s5b, s6b, s7b⟩ := hsb
  have hpb : sp2 ≠ sp2 ++ "_sum1" ∧ sp2 ≠ sp2 ++ "_sum2" ∧ sp2 ≠ "sows_centroids" ∧
      sp2 ≠ "shoreline_split" ∧ sp2 ≠ "shoreline_lyr" ∧
      sp2 ≠ "shorelines_split_select" ∧ sp2 ≠ sp2 ++ "_SOWS_Stats" := by
    simpa [derivedNames] using hsp2b
  obtain ⟨p1b, p2b, p3b, p4b, p5b, p6b, p7b⟩ := hpb
  simp only [get_sows_stats, h1, h2] at hrun1
  cases hb1 : sowsBody ws sp1 sows shore poly1 sowsFC with
  | error we =>
    rw [hb1] at hrun1
    cases hrun1
    simp at hok1
  | ok wOk1 =>
    rw [hb1] at hrun1
    simp only [Except.ok.injEq, Prod.mk.injEq] at hrun1
    obtain ⟨hw1, hl1⟩ := hrun1
    obtain ⟨shoreFC, fc2b1, sowsCur1, noaaFC, shoreFC21, polyCur1, fc3f1,
      hshoreL1, hany11, hcalc1, hsowsL1, hnoaa1, hshore2L1, hany21, hspL1, htidy1,
      hequiv1⟩ := sowsBody_ok_elim hb1
    rw [lookupFC_set_ne (Ne.symm r1a)] at hshoreL1
    rw [lookupFC_set_ne (Ne.symm s2a), lookupFC_set_ne (Ne.symm s1a)] at hsowsL1
    have hsc1 : sowsFC = sowsCur1 := (Option.some.inj (hsowsL1.symm.trans h2)).symm
    subst hsc1
    rw [lookupFC_set_ne (Ne.symm r3a), lookupFC_set_ne (Ne.symm r2a),
      lookupFC_set_ne (Ne.symm r1a)] at hshore2L1
    have hshc1 : shoreFC = shoreFC21 := (Option.some.inj (hshore2L1.symm.trans hshoreL1)).symm
    subst hshc1
    rw [lookupFC_set_ne (Ne.symm p5a), lookupFC_set_ne (Ne.symm p4a),
      lookupFC_set_ne (Ne.symm p3a), lookupFC_set_ne (Ne.symm p2a),
      lookupFC_set_ne (Ne.symm p1a)] at hspL1
    have hpc1 : poly1 = polyCur1 := (Option.some.inj (hspL1.symm.trans h1)).symm
    subst hpc1
    have hframe1 : ∀ x, ¬ x ∈ derivedNames sp1 → lookupFC wOk1 x = lookupFC ws x := by
      intro x hx
      rw [hequiv1 x, wsFinalOf_frame ws sp1 x (fc1Of poly1 sowsFC) fc2b1
        (centSnapOf sowsFC noaaFC) (splitCalcOf shoreFC sowsFC noaaFC)
        (selectedOf shoreFC sowsFC noaaFC poly1) fc3f1 hx]
    have hcent1 : lookupFC wOk1 "sows_centroids" = some (centSnapOf sowsFC noaaFC) := by
      rw [hequiv1 "sows_centroids"]
      simp only [wsFinalOf, lookupFC_set_ne ((stats_ne_rest sp1).2.1),
        lookupFC_set_ne (show "shorelines_split_select" ≠ "sows_centroids" by decide),
        lookupFC_set_ne (show "shoreline_lyr" ≠ "sows_centroids" by decide),
        lookupFC_set_ne (show "shoreline_split" ≠ "sows_centroids" by decide),
        lookupFC_setFC_same]
    have hsplit1 : lookupFC wOk1 "shoreline_split" =
        some (splitCalcOf shoreFC sowsFC noaaFC) := by
      rw [hequiv1 "shoreline_split"]
      simp only [wsFinalOf, lookupFC_set_ne ((stats_ne_rest sp1).2.2.1),
        lookupFC_set_ne (show "shorelines_split_select" ≠ "shoreline_split" by decide),
        lookupFC_set_ne (show "shoreline_lyr" ≠ "shoreline_split" by decide),
        lookupFC_setFC_same]
    have hsel1 : lookupFC wOk1 "shorelines_split_select" =
        some (selectedOf shoreFC sowsFC noaaFC poly1) := by
      rw [hequiv1 "shorelines_split_select"]
      simp only [wsFinalOf, lookupFC_set_ne ((stats_ne_rest sp1).2.2.2.2),
        lookupFC_setFC_same]
    have hw1sows : lookupFC wOk1 sows = some sowsFC := (hframe1 sows hsowsa).trans h2
    have hw1shore : lookupFC wOk1 shore = some shoreFC :=
      (hframe1 shore hshorea).trans hshoreL1
    have hw1noaa : lookupFC wOk1 snapTargetName = some noaaFC :=
      (hframe1 snapTargetName (snapTarget_not_derived sp1)).trans hnoaa1
    rw [← hw1] at hrun2
    cases hp2 : lookupFC wOk1 sp2 with
    | none =>
      simp only [get_sows_stats, hp2] at hrun2
      cases hrun2
    | some poly2 =>
      simp only [get_sows_stats, hp2, hw1sows] at hrun2
      cases hb2 : sowsBody wOk1 sp2 sows shore poly2 sowsFC with
      | error we =>
        rw [hb2] at hrun2
        cases hrun2
        simp at hok2
      | ok wOk2 =>
        rw [hb2] at hrun2
        simp only [Except.ok.injEq, Prod.mk.injEq] at hrun2
        obtain ⟨hw2, hl2⟩ := hrun2
        obtain ⟨shoreFCb, fc2b2, sowsCur2, noaaFC2, shoreFC2b, polyCur2, fc3f2,
          hshoreL2, hany12, hcalc2, hsowsL2, hnoaa2, hshore2L2, hany22, hspL2,
          htidy2, hequiv2⟩ := sowsBody_ok_elim hb2
        rw [lookupFC_set_ne (Ne.symm r1b)] at hshoreL2
        have hshb : shoreFC = shoreFCb := Option.some.inj (hw1shore.symm.trans hshoreL2)
        subst hshb
        rw [lookupFC_set_ne (Ne.symm s2b), lookupFC_set_ne (Ne.symm s1b)] at hsowsL2
        have hscb : sowsFC = sowsCur2 := Option.some.inj (hw1sows.symm.trans hsowsL2)
        subst hscb
        have hnb : noaaFC = noaaFC2 := Option.some.inj (hw1noaa.symm.trans hnoaa2)
        subst hnb
        rw [lookupFC_set_ne (Ne.symm r3b), lookupFC_set_ne (Ne.symm r2b),
          lookupFC_set_ne (Ne.symm r1b)] at hshore2L2
        have hsh2b : shoreFC = shoreFC2b :=
          Option.some.inj (hw1shore.symm.trans hshore2L2)
        subst hsh2b
        rw [lookupFC_set_ne (Ne.symm p5b), lookupFC_set_ne (Ne.symm p4b),
          lookupFC_set_ne (Ne.symm p3b), lookupFC_set_ne (Ne.symm p2b),
          lookupFC_set_ne (Ne.symm p1b)] at hspL2
        have hpcb : poly2 = polyCur2 := Option.some.inj (hp2.symm.trans hspL2)
        subst hpcb
        have hframe2 : ∀ x, ¬ x ∈ derivedNames sp2 →
            lookupFC wOk2 x = lookupFC wOk1 x := by
          intro x hx
          rw [hequiv2 x, wsFinalOf_frame wOk1 sp2 x (fc1Of poly2 sowsFC) fc2b2
            (centSnapOf sowsFC noaaFC) (splitCalcOf shoreFC sowsFC noaaFC)
            (selectedOf shoreFC sowsFC noaaFC poly2) fc3f2 hx]
        have hcent2 : lookupFC wOk2 "sows_centroids" =
            some (centSnapOf sowsFC noaaFC) := by
          rw [hequiv2 "sows_centroids"]
          simp only [wsFinalOf, lookupFC_set_ne ((stats_ne_rest sp2).2.1),
            lookupFC_set_ne (show "shorelines_split_select" ≠ "sows_centroids" by decide),
            lookupFC_set_ne (show "shoreline_lyr" ≠ "sows_centroids" by decide),
            lookupFC_set_ne (show "shoreline_split" ≠ "sows_centroids" by decide),
            lookupFC_setFC_same]
        have hsplit2 : lookupFC wOk2 "shoreline_split" =
            some (splitCalcOf shoreFC sowsFC noaaFC) := by
          rw [hequiv2 "shoreline_split"]
          simp only [wsFinalOf, lookupFC_set_ne ((stats_ne_rest sp2).2.2.1),
            lookupFC_set_ne (show "shorelines_split_select" ≠ "shoreline_split" by decide),
            lookupFC_set_ne (show "shoreline_lyr" ≠ "shoreline_split" by decide),
            lookupFC_setFC_same]
        have hsel2 : lookupFC wOk2 "shorelines_split_select" =
            some (selectedOf shoreFC sowsFC noaaFC poly2) := by
          rw [hequiv2 "shorelines_split_select"]
          simp only [wsFinalOf, lookupFC_set_ne ((stats_ne_rest sp2).2.2.2.2),
            lookupFC_setFC_same]
        have hsum1b : lookupFC wOk2 (sp2 ++ "_sum1") = some (fc1Of poly2 sowsFC) := by
          rw [hequiv2 (sp2 ++ "_sum1")]
          simp only [wsFinalOf,
            lookupFC_set_ne (Ne.symm ((sum1_ne_rest sp2).2.1)),
            lookupFC_set_ne (Ne.symm ((sum1_ne_rest sp2).2.2.2.2.2)),
            lookupFC_set_ne (Ne.symm ((sum1_ne_rest sp2).2.2.2.2.1)),
            lookupFC_set_ne (Ne.symm ((sum1_ne_rest sp2).2.2.2.1)),
            lookupFC_set_ne (Ne.symm ((sum1_ne_rest sp2).2.2.1)),
            lookupFC_set_ne (Ne.symm ((sum1_ne_rest sp2).1)),
            lookupFC_setFC_same]
        obtain ⟨c1, c2, c3⟩ := namespaced_not_cross_derived hne
        rw [← hw1, ← hw2]
        exact ⟨shoreFC, noaaFC, poly2, hshoreL1, hnoaa1, hp2, hcent1, hsplit1, hsel1,
          hcent2, hsplit2, hsel2, hframe2 (sp1 ++ "_sum1") c1,
          hframe2 (sp1 ++ "_sum2") c2, hframe2 (sp1 ++ "_SOWS_Stats") c3, hsum1b⟩

/-- A second geography: one region covering cells 0-9, to run after the
two-county layer in the same workspace. -/
def subPoly : FC := FC.mk ShapeType.polygon [FieldDef.mk "RegionId" "RegionId"]
  [Feature.mk (Geom.mk [0, 1, 2, 3, 4, 5, 6, 7, 8, 9]) [("RegionId", some 1)]]

/-- The demo workspace extended with the second geography layer. -/
def c10WS : Workspace := ("Subbasins", subPoly) :: demoWS

/-- Witness for C10 at the concrete two-geography workspace: the second
run overwrites the fixed-name intermediates with its own stage values and
leaves the first run's namespaced outputs untouched. -/
theorem C10_fixed_intermediates_witness :
    ∃ shoreFC noaaFC poly2,
      lookupFC c10WS "noaa_shoreline_diss" = some shoreFC ∧
      lookupFC c10WS snapTargetName = some noaaFC ∧
      lookupFC (runWS c10WS "Counties_StatePlane" "NOAA_SOWS_Filtered_v3"
        "noaa_shoreline_diss") "Subbasins" = some poly2 ∧
      lookupFC (runWS c10WS "Counties_StatePlane" "NOAA_SOWS_Filtered_v3"
        "noaa_shoreline_diss") "sows_centroids" = some (centSnapOf demoSows noaaFC) ∧
      lookupFC (runWS c10WS "Counties_StatePlane" "NOAA_SOWS_Filtered_v3"
        "noaa_shoreline_diss") "shoreline_split" =
        some (splitCalcOf shoreFC demoSows noaaFC) ∧
      lookupFC (runWS c10WS "Counties_StatePlane" "NOAA_SOWS_Filtered_v3"
        "noaa_shoreline_diss") "shorelines_split_select" =
        some (selectedOf shoreFC demoSows noaaFC demoPoly) ∧
      lookupFC (runWS (runWS c10WS "Counties_StatePlane" "NOAA_SOWS_Filtered_v3"
        "noaa_shoreline_diss") "Subbasins" "NOAA_SOWS_Filtered_v3"
        "noaa_shoreline_diss") "sows_centroids" = some (centSnapOf demoSows noaaFC) ∧
      lookupFC (runWS (runWS c10WS "Counties_StatePlane" "NOAA_SOWS_Filtered_v3"
        "noaa_shoreline_diss") "Subbasins" "NOAA_SOWS_Filtered_v3"
        "noaa_shoreline_diss") "shoreline_split" =
        some (splitCalcOf shoreFC demoSows noaaFC) ∧
      lookupFC (runWS (runWS c10WS "Counties_StatePlane" "NOAA_SOWS_Filtered_v3"
        "noaa_shoreline_diss") "Subbasins" "NOAA_SOWS_Filtered_v3"
        "noaa_shoreline_diss") "shorelines_split_select" =
        some (selectedOf shoreFC demoSows noaaFC poly2) ∧
      lookupFC (runWS (runWS c10WS "Counties_StatePlane" "NOAA_SOWS_Filtered_v3"
        "noaa_shoreline_diss") "Subbasins" "NOAA_SOWS_Filtered_v3"
        "noaa_shoreline_diss") ("Counties_StatePlane" ++ "_sum1") =
        lookupFC (runWS c10WS "Counties_StatePlane" "NOAA_SOWS_Filtered_v3"
          "noaa_shoreline_diss") ("Counties_StatePlane" ++ "_sum1") ∧
      lookupFC (runWS (runWS c10WS "Counties_StatePlane" "NOAA_SOWS_Filtered_v3"
        "noaa_shoreline_diss") "Subbasins" "NOAA_SOWS_Filtered_v3"
        "noaa_shoreline_diss") ("Counties_StatePlane" ++ "_sum2") =
        lookupFC (runWS c10WS "Counties_StatePlane" "NOAA_SOWS_Filtered_v3"
          "noaa_shoreline_diss") ("Counties_StatePlane" ++ "_sum2") ∧
      lookupFC (runWS (runWS c10WS "Counties_StatePlane" "NOAA_SOWS_Filtered_v3"
        "noaa_shoreline_diss") "Subbasins" "NOAA_SOWS_Filtered_v3"
        "noaa_shoreline_diss") ("Counties_StatePlane" ++ "_SOWS_Stats") =
        lookupFC (runWS c10WS "Counties_StatePlane" "NOAA_SOWS_Filtered_v3"
          "noaa_shoreline_diss") ("Counties_StatePlane" ++ "_SOWS_Stats") ∧
      lookupFC (runWS (runWS c10WS "Counties_StatePlane" "NOAA_SOWS_Filtered_v3"
        "noaa_shoreline_diss") "Subbasins" "NOAA_SOWS_Filtered_v3"
        "noaa_shoreline_diss") ("Subbasins" ++ "_sum1") =
        some (fc1Of poly2 demoSows) :=
  C10_fixed_intermediates c10WS "Counties_StatePlane" "Subbasins"
    "NOAA_SOWS_Filtered_v3" "noaa_shoreline_diss" demoPoly demoSows (by decide)
    rfl rfl (by decide) (by decide) (by decide) (by decide) (by decide) (by decide)
    (runWS c10WS "Counties_StatePlane" "NOAA_SOWS_Filtered_v3" "noaa_shoreline_diss")
    (runLog c10WS "Counties_StatePlane" "NOAA_SOWS_Filtered_v3" "noaa_shoreline_diss")
    (runWS (runWS c10WS "Counties_StatePlane" "NOAA_SOWS_Filtered_v3"
      "noaa_shoreline_diss") "Subbasins" "NOAA_SOWS_Filtered_v3" "noaa_shoreline_diss")
    (runLog (runWS c10WS "Counties_StatePlane" "NOAA_SOWS_Filtered_v3"
      "noaa_shoreline_diss") "Subbasins" "NOAA_SOWS_Filtered_v3" "noaa_shoreline_diss")
    rfl rfl rfl rfl

end SOWS
